import Mathlib

/-!
Shallow embedding of the Open WebUI development orchestration material:
`dev.sh` (a linear bash script that starts/stops/restarts a backend and a
frontend dev server in named screen sessions) and the Vite dev-server /
reverse-proxy configuration.  The script is modelled as a state transformer
on an explicit `World` (filesystem flags, environment, screen sessions,
TCP port bindings, emitted messages); each definition mirrors a concrete
region of the source, noted in its doc comment.
-/

namespace DevOrch

/-- Environment variables consulted by dev.sh (lines 49-50) and
vite.config.ts (lines 26-31). -/
structure EnvMap where
  OPEN_WEBUI_PORT : Option String
  VITE_PORT : Option String
  VITE_API_HOST : Option String
deriving DecidableEq

/-- A TCP port binding as observed through lsof: the process (pid, command
line) currently bound to a port.  `killable` records whether a SIGKILL
delivered to the pid actually removes the process (dev.sh ignores kill
failures with `|| true`, so an unkillable process simply stays bound). -/
structure PortBinding where
  port : String
  pid : Nat
  cmd : String
  killable : Bool
deriving DecidableEq

/-- A named detached screen session running one command
(`screen -dmS name bash -c cmd`). -/
structure Session where
  name : String
  cmd : String
deriving DecidableEq

/-- The observable state dev.sh interacts with.  `msgs` is the transcript of
echoed diagnostics, `spawned` the history of `screen -dmS` launches
performed during the run (sessions may later be quit; `spawned` never
shrinks). -/
structure World where
  scriptDir : String
  screenInstalled : Bool
  venvExists : Bool
  nodeModulesExists : Bool
  logsDirExists : Bool
  envFile : Option EnvMap
  envExample : Option EnvMap
  shellEnv : EnvMap
  sessions : List Session
  bindings : List PortBinding
  ollamaInstalled : Bool
  ollamaRunning : Bool
  msgs : List String
  spawned : List Session
deriving DecidableEq

/-- Boolean substring test over char lists: `pat` occurs contiguously in
`l`.  Used to model `grep` fixed-fragment matching. -/
def hasInfix (l pat : List Char) : Bool :=
  match l with
  | [] => pat.isEmpty
  | _ :: t => pat.isPrefixOf l || hasInfix t pat

/-- `grep fragment` on a single line: the fragment occurs in the string. -/
def strContains (s pat : String) : Bool :=
  hasInfix s.data pat.data

/-- `grep -E "f1|f2|..."` on one command line: some fragment matches. -/
def matchesSig (cmd : String) (sig : List String) : Bool :=
  sig.any (fun f => strContains cmd f)

/-- dev.sh line 74 / 173: expected backend server signature. -/
def backendSig : List String := ["node", "python", "uvicorn"]

/-- dev.sh line 86 / 185: expected frontend server signature. -/
def frontendSig : List String := ["node", "npm", "vite"]

/-- dev.sh lines 113-114: browser-like command lines (grep -iE). -/
def browserSig : List String := ["firefox", "chrome", "safari", "browser"]

/-- `echo`: append one diagnostic line to the transcript. -/
def emit (w : World) (m : String) : World :=
  { w with msgs := w.msgs ++ [m] }

/-- Append several diagnostic lines. -/
def emitAll (w : World) (ms : List String) : World :=
  { w with msgs := w.msgs ++ ms }

/-- `lsof -ti:PORT`: pids of the processes currently bound to a port. -/
def lsofPids (w : World) (port : String) : List Nat :=
  (w.bindings.filter (fun b => b.port == port)).map (fun b => b.pid)

/-- `ps -p PID -o command=`: the command line of a live pid, if any. -/
def psCommand (w : World) (pid : Nat) : Option String :=
  (w.bindings.find? (fun b => b.pid == pid)).map (fun b => b.cmd)

/-- `kill -9 PID 2>/dev/null || true`: removes the process (hence all its
port bindings) when it is killable; failures are ignored. -/
def killPid (w : World) (pid : Nat) : World :=
  { w with bindings := w.bindings.filter (fun b => !(b.pid == pid && b.killable)) }

/-- Message echoed when a known server process is killed (line 75 / 174). -/
def killMsg (pid : Nat) (port : String) : String :=
  "Killing process on port " ++ port ++ ": " ++ toString pid

/-- Warning echoed for a foreign process on the port (line 78 / 90 / 177 / 189). -/
def warnForeign (pid : Nat) (port : String) : String :=
  "Warning: Process " ++ toString pid ++ " on port " ++ port ++
    " is not our server process. Not killing."

/-- One iteration of the port-kill classification loop
(dev.sh lines 72-80, 84-93, 171-179, 183-192): look up the pid command
line; kill it only when it matches the expected server signature, otherwise
leave it alone and warn. -/
def killStep (sig : List String) (port : String) (w : World) (pid : Nat) : World :=
  if matchesSig ((psCommand w pid).getD ("")) sig then
    emit (killPid w pid) (killMsg pid port)
  else
    emit w (warnForeign pid port)

/-- The whole classification loop over a pre-captured pid list. -/
def killLoop (sig : List String) (port : String) (pids : List Nat) (w : World) : World :=
  pids.foldl (killStep sig port) w

/-- dev.sh lines 67-94 (and 167-193): capture both pid lists first, then run
the backend loop, then the frontend loop. -/
def stageKills (bp fp : String) (w : World) : World :=
  let bPids := lsofPids w bp
  let fPids := lsofPids w fp
  killLoop frontendSig fp fPids (killLoop backendSig bp bPids w)

/-- dev.sh line 10: `mkdir -p logs`. -/
def mkLogsDir (w : World) : World :=
  { w with logsDirExists := true }

/-- dev.sh lines 31-40: create `.env` from `.env.local_example` when absent,
or warn when neither file exists. -/
def setupEnvFile (w : World) : World :=
  match w.envFile with
  | some _ => w
  | none =>
    match w.envExample with
    | some e => emit { w with envFile := some e } ("Creating .env file from .env.local_example...")
    | none => emit w ("Warning: No .env file found and no .env.local_example to copy from.")

/-- File value wins over the inherited shell value when defined (bash
`source .env` re-assigns exactly the variables the file sets). -/
def pick (fileVal shellVal : Option String) : Option String :=
  match fileVal with
  | some v => some v
  | none => shellVal

/-- dev.sh lines 44-46: environment after sourcing `.env` when present. -/
def sourcedEnv (w : World) : EnvMap :=
  match w.envFile with
  | some f =>
    { OPEN_WEBUI_PORT := pick f.OPEN_WEBUI_PORT w.shellEnv.OPEN_WEBUI_PORT
      VITE_PORT := pick f.VITE_PORT w.shellEnv.VITE_PORT
      VITE_API_HOST := pick f.VITE_API_HOST w.shellEnv.VITE_API_HOST }
  | none => w.shellEnv

/-- Bash `${VAR:-default}`: default when unset or empty. -/
def paramDefault (v : Option String) (d : String) : String :=
  match v with
  | some s => if s = "" then d else s
  | none => d

/-- dev.sh line 49: `BACKEND_PORT=${OPEN_WEBUI_PORT:-8080}`. -/
def backendPortOf (e : EnvMap) : String :=
  paramDefault e.OPEN_WEBUI_PORT ("8080")

/-- dev.sh line 50: `FRONTEND_PORT=${VITE_PORT:-5173}`. -/
def frontendPortOf (e : EnvMap) : String :=
  paramDefault e.VITE_PORT ("5173")

/-- The backend port the script ends up using for a given starting world. -/
def bportW (w : World) : String :=
  backendPortOf (sourcedEnv (setupEnvFile (mkLogsDir w)))

/-- The frontend port the script ends up using for a given starting world. -/
def fportW (w : World) : String :=
  frontendPortOf (sourcedEnv (setupEnvFile (mkLogsDir w)))

/-- `screen -ls | grep NAME | ... screen -X quit`: terminate every session
whose name mentions the pattern (dev.sh lines 61-62, 163-164). -/
def quitSessions (pat : String) (w : World) : World :=
  { w with sessions := w.sessions.filter (fun s => !(strContains s.name pat)) }

/-- Reap both reserved session names. -/
def cleanupSessions (w : World) : World :=
  quitSessions ("webui-frontend") (quitSessions ("webui-backend") w)

/-- dev.sh lines 97-98: re-query the port and keep only the command lines
still matching the expected server signature. -/
def checkPort (w : World) (port : String) (sig : List String) : List String :=
  ((lsofPids w port).filterMap (fun pid => psCommand w pid)).filter
    (fun c => matchesSig c sig)

/-- Character-wise ASCII lowercasing (the effect of grep -i on this input). -/
def lowerStr (s : String) : String :=
  ⟨s.data.map Char.toLower⟩

/-- dev.sh lines 113-114: browser-like command lines on a port (grep -iE,
so compare lower-cased). -/
def browserCheck (w : World) (port : String) : List String :=
  ((lsofPids w port).filterMap (fun pid => psCommand w pid)).filter
    (fun c => browserSig.any (fun f => strContains (lowerStr c) f))

/-- Warning echoed at dev.sh lines 117 and 121. -/
def browserWarn (port : String) : String :=
  "Warning: A browser is using port " ++ port ++
    ". Please close relevant browser tabs before continuing."

/-- Error echoed at dev.sh lines 101 and 107. -/
def portErr (port : String) : String :=
  "Error: Port " ++ port ++ " is still in use by our own processes. Please free this port manually."

/-- dev.sh lines 124-135: advisory about the local Ollama runtime. -/
def ollamaAdvisory (w : World) : World :=
  if w.ollamaInstalled then
    if w.ollamaRunning then emit w ("Ollama is running.")
    else emit w ("Warning: Ollama is installed but not running.")
  else emit w ("Warning: Ollama is not installed.")

/-- Constant tail of the backend launch command, dev.sh line 143. -/
def uvicornTail (dir : String) : String :=
  " --host 0.0.0.0 --forwarded-allow-ips \x27*\x27 --reload 2>&1 | tee " ++ dir ++ "/logs/backend.log"

/-- dev.sh line 143: the command run inside the webui-backend session.  The
bind host is the hard-coded literal 0.0.0.0; no environment variable is
interpolated into it. -/
def backendLaunchCmd (dir port : String) : String :=
  "cd " ++ dir ++ "/backend && source " ++ dir ++
    "/venv/bin/activate && python -m uvicorn open_webui.main:app --port " ++
    port ++ uvicornTail dir

/-- dev.sh line 147: the command run inside the webui-frontend session. -/
def frontendLaunchCmd (dir : String) : String :=
  "cd " ++ dir ++ " && npm run dev 2>&1 | tee " ++ dir ++ "/logs/frontend.log"

/-- `screen -dmS`: create a detached named session and record the launch. -/
def spawnSession (w : World) (s : Session) : World :=
  { w with sessions := w.sessions ++ [s], spawned := w.spawned ++ [s] }

/-- dev.sh lines 137-147: launch backend and frontend sessions. -/
def launchSessions (bp : String) (w : World) : World :=
  let w1 := emit w ("Starting backend server in screen session webui-backend...")
  let w2 := spawnSession w1 ⟨"webui-backend", backendLaunchCmd w1.scriptDir bp⟩
  let w3 := emit w2 ("Starting frontend development server in screen session webui-frontend...")
  spawnSession w3 ⟨"webui-frontend", frontendLaunchCmd w3.scriptDir⟩

/-- dev.sh lines 112-158: browser advisories (frontend port first), the
Ollama advisory, and the unconditional launch of the two sessions with the
start banner. -/
def launchPhase (bp fp : String) (w : World) : World :=
  let w1 := if (browserCheck w fp).isEmpty then w else emit w (browserWarn fp)
  let w2 := if (browserCheck w1 bp).isEmpty then w1 else emit w1 (browserWarn bp)
  emit (launchSessions bp (ollamaAdvisory w2)) ("Development environment started!")

/-- dev.sh lines 161-196, the body of the `stop` branch: quit both reserved
sessions, then re-run the classification loops on freshly captured pids. -/
def stopPhase (bp fp : String) (w : World) : World :=
  emit (stageKills bp fp (cleanupSessions (emit w ("Stopping development environment..."))))
    ("Development environment stopped.")

/-- dev.sh lines 112-207 (after the port re-check has passed): the launch
phase always runs; with argument `stop` the stop branch then runs and the
script exits 0; with any other argument the script falls through (the
caller decides the restart branch and the final status). -/
def afterGate (arg bp fp : String) (w : World) : World × Option Nat :=
  if arg = "stop" then (stopPhase bp fp (launchPhase bp fp w), some 0)
  else (launchPhase bp fp w, none)

/-- dev.sh lines 96-110: the port re-check.  Frontend is tested first; a
known server process still bound is fatal (exit 1) with the offending
command lines echoed. -/
def portGate (arg bp fp : String) (w : World) : World × Option Nat :=
  if (checkPort w fp frontendSig).isEmpty then
    if (checkPort w bp backendSig).isEmpty then afterGate arg bp fp w
    else (emitAll (emit w (portErr bp)) (checkPort w bp backendSig), some 1)
  else (emitAll (emit w (portErr fp)) (checkPort w fp frontendSig), some 1)

/-- dev.sh lines 6-197 run linearly (everything except the restart branch):
mkdir logs; venv and node_modules prerequisite checks (exit 1); .env
setup and sourcing; screen availability check (exit 1); session cleanup;
port-kill loops; port re-check; advisories; session launch; stop branch.
`some c` means the script exited with status c inside this region; `none`
means control fell through to the restart branch. -/
def runLinear (arg : String) (w0 : World) : World × Option Nat :=
  let w := mkLogsDir w0
  if w.venvExists then
    if w.nodeModulesExists then
      let w1 := setupEnvFile w
      if w1.screenInstalled then
        portGate arg (bportW w0) (fportW w0) (stageKills (bportW w0) (fportW w0) (cleanupSessions w1))
      else (emit w1 ("screen is not installed. Please install it first."), some 1)
    else (emit w ("Node modules not found"), some 1)
  else (emit w ("Virtual environment not found"), some 1)

/-- One full invocation of dev.sh with a positional argument.  The restart
branch (lines 199-207) recursively invokes the script with `stop`, then
with `start`, then exits 0 unconditionally.  Falling off the end of the
script yields status 0. -/
def runScript (arg : String) (w : World) : World × Nat :=
  match runLinear arg w with
  | (w1, some c) => (w1, c)
  | (w1, none) =>
    if arg = "restart" then
      let w2 := (runLinear ("stop") (emit w1 ("Restarting development environment..."))).1
      let w3 := (runLinear ("start") w2).1
      (w3, 0)
    else (w1, 0)

/-- JavaScript `x || d` on an env lookup: the default replaces an undefined
or empty (falsy) value (vite.config.ts lines 26, 30, 31). -/
def jsOr (v : Option String) (d : String) : String :=
  match v with
  | some s => if s = "" then d else s
  | none => d

/-- JavaScript `parseInt` restricted to the decimal strings that occur here:
value of the leading digit run, `none` (NaN) when there is no digit. -/
def jsParseInt (s : String) : Option Int :=
  let digits := s.data.takeWhile (fun c => c.isDigit)
  if digits.isEmpty then none
  else some (digits.foldl (fun acc c => acc * 10 + ((c.toNat : Int) - 48)) 0)

/-- vite.config.ts line 26: `parseInt(env.VITE_PORT || '5173')`. -/
def viteFrontendPort (env : EnvMap) : Option Int :=
  jsParseInt (jsOr env.VITE_PORT ("5173"))

/-- vite.config.ts line 30: `env.VITE_API_HOST || '127.0.0.1'`. -/
def viteBackendHost (env : EnvMap) : String :=
  jsOr env.VITE_API_HOST ("127.0.0.1")

/-- vite.config.ts line 31: `parseInt(env.OPEN_WEBUI_PORT || '8080')`. -/
def viteBackendPort (env : EnvMap) : Option Int :=
  jsParseInt (jsOr env.OPEN_WEBUI_PORT ("8080"))

/-- JS number-to-string as used in a template literal. -/
def jsNumToString (n : Option Int) : String :=
  match n with
  | some v => toString v
  | none => "NaN"

/-- vite.config.ts line 32: the proxy target URL. -/
def backendUrl (env : EnvMap) : String :=
  "http://" ++ viteBackendHost env ++ ":" ++ jsNumToString (viteBackendPort env)

/-- One `server.proxy` entry (vite.config.ts lines 69-91). -/
structure ProxyEntry where
  target : String
  changeOrigin : Bool
  secure : Bool
  rewrite : Option (String → String)

/-- vite.config.ts lines 68-92: the `/api` entry carries an explicit rewrite
that returns the path unchanged, and the Auth0 OAuth callback route has its
own entry with no rewrite field at all. -/
def proxyConfig (env : EnvMap) : List (String × ProxyEntry) :=
  [("/api",
    { target := backendUrl env, changeOrigin := true, secure := false,
      rewrite := some (fun p => p) }),
   ("/api/v1/auths/oauth/auth0/callback",
    { target := backendUrl env, changeOrigin := true, secure := false,
      rewrite := none })]

/-- Boolean prefix test on strings. -/
def strStartsWith (s pat : String) : Bool :=
  pat.data.isPrefixOf s.data

/-- Modelled from the spec: the dev server reverse-proxy dispatch (the Vite
proxy engine itself is not part of the provided sources).  A request path is
handled by the first configured context that prefixes it; the forwarded
request goes to that entry target with the rewrite function (identity when
absent) applied to the path. -/
def viteProxyForward (env : EnvMap) (path : String) : Option (String × String) :=
  match (proxyConfig env).find? (fun e => strStartsWith path e.1) with
  | some (_, entry) => some (entry.target, (entry.rewrite.getD (fun p => p)) path)
  | none => none

/-- The three prerequisite flags dev.sh checks before doing real work. -/
@[reducible] def preconds (w : World) : Prop :=
  w.venvExists = true ∧ w.nodeModulesExists = true ∧ w.screenInstalled = true

/-- Port-binding data is consistent: two bindings of the same pid describe
the same OS process (same command line, same killability). -/
@[reducible] def WellFormed (w : World) : Prop :=
  ∀ b1, b1 ∈ w.bindings → ∀ b2, b2 ∈ w.bindings → b1.pid = b2.pid →
    b1.cmd = b2.cmd ∧ b1.killable = b2.killable

/-- Every process matching a server signature actually dies when killed. -/
@[reducible] def serversKillable (w : World) : Prop :=
  ∀ b, b ∈ w.bindings →
    (matchesSig b.cmd backendSig = true ∨ matchesSig b.cmd frontendSig = true) →
    b.killable = true

/-- The sessions bearing one of the two reserved managed names. -/
def managedSessions (w : World) : List Session :=
  w.sessions.filter
    (fun s => strContains s.name ("webui-backend") || strContains s.name ("webui-frontend"))

/-- Environment with none of the three variables set. -/
def emptyEnv : EnvMap := ⟨none, none, none⟩

/-- A clean development checkout: prerequisites installed, no .env and no
template, nothing running. -/
def devWorld : World :=
  { scriptDir := "/repo", screenInstalled := true, venvExists := true,
    nodeModulesExists := true, logsDirExists := false, envFile := none,
    envExample := none, shellEnv := emptyEnv, sessions := [], bindings := [],
    ollamaInstalled := false, ollamaRunning := false, msgs := [], spawned := [] }

/-- devWorld with the screen tool missing, no logs directory yet, and an
environment template available to copy. -/
def noScreenWorld : World :=
  { devWorld with screenInstalled := false, envExample := some emptyEnv }

/-- devWorld with the python virtual environment missing. -/
def noVenvWorld : World :=
  { devWorld with venvExists := false }

/-- A foreign (non-server) process holding the frontend port. -/
def foreignBinding : PortBinding :=
  { port := "5173", pid := 42, cmd := "java -jar someapp.jar", killable := true }

/-- devWorld with the foreign process bound to the frontend port. -/
def foreignWorld : World :=
  { devWorld with bindings := [foreignBinding] }

/-- The orchestrator own backend server, still bound and unkillable. -/
def stuckBackendBinding : PortBinding :=
  { port := "8080", pid := 7, cmd := "python -m uvicorn open_webui.main:app", killable := false }

/-- devWorld with an unkillable known backend server on the backend port. -/
def stuckBackendWorld : World :=
  { devWorld with bindings := [stuckBackendBinding] }

/-! ## Field bookkeeping lemmas -/

@[simp] theorem emit_scriptDir (w : World) (m : String) : (emit w m).scriptDir = w.scriptDir := rfl

@[simp] theorem emit_bindings (w : World) (m : String) : (emit w m).bindings = w.bindings := rfl

@[simp] theorem emit_sessions (w : World) (m : String) : (emit w m).sessions = w.sessions := rfl

@[simp] theorem emit_spawned (w : World) (m : String) : (emit w m).spawned = w.spawned := rfl

@[simp] theorem emit_venv (w : World) (m : String) : (emit w m).venvExists = w.venvExists := rfl

@[simp] theorem emit_nm (w : World) (m : String) : (emit w m).nodeModulesExists = w.nodeModulesExists := rfl

@[simp] theorem emit_screen (w : World) (m : String) : (emit w m).screenInstalled = w.screenInstalled := rfl

@[simp] theorem emit_logs (w : World) (m : String) : (emit w m).logsDirExists = w.logsDirExists := rfl

@[simp] theorem emit_envFile (w : World) (m : String) : (emit w m).envFile = w.envFile := rfl

@[simp] theorem emit_msgs (w : World) (m : String) : (emit w m).msgs = w.msgs ++ [m] := rfl

@[simp] theorem emitAll_scriptDir (w : World) (ms : List String) : (emitAll w ms).scriptDir = w.scriptDir := rfl

@[simp] theorem emitAll_bindings (w : World) (ms : List String) : (emitAll w ms).bindings = w.bindings := rfl

@[simp] theorem emitAll_sessions (w : World) (ms : List String) : (emitAll w ms).sessions = w.sessions := rfl

@[simp] theorem emitAll_spawned (w : World) (ms : List String) : (emitAll w ms).spawned = w.spawned := rfl

@[simp] theorem emitAll_msgs (w : World) (ms : List String) : (emitAll w ms).msgs = w.msgs ++ ms := rfl

@[simp] theorem emitAll_venv (w : World) (ms : List String) : (emitAll w ms).venvExists = w.venvExists := rfl

@[simp] theorem emitAll_nm (w : World) (ms : List String) : (emitAll w ms).nodeModulesExists = w.nodeModulesExists := rfl

@[simp] theorem emitAll_screen (w : World) (ms : List String) : (emitAll w ms).screenInstalled = w.screenInstalled := rfl

@[simp] theorem killPid_scriptDir (w : World) (pid : Nat) : (killPid w pid).scriptDir = w.scriptDir := rfl

@[simp] theorem killPid_sessions (w : World) (pid : Nat) : (killPid w pid).sessions = w.sessions := rfl

@[simp] theorem killPid_spawned (w : World) (pid : Nat) : (killPid w pid).spawned = w.spawned := rfl

@[simp] theorem killPid_msgs (w : World) (pid : Nat) : (killPid w pid).msgs = w.msgs := rfl

@[simp] theorem killPid_bindings (w : World) (pid : Nat) :
    (killPid w pid).bindings = w.bindings.filter (fun b => !(b.pid == pid && b.killable)) := rfl

@[simp] theorem mkLogsDir_scriptDir (w : World) : (mkLogsDir w).scriptDir = w.scriptDir := rfl

@[simp] theorem mkLogsDir_bindings (w : World) : (mkLogsDir w).bindings = w.bindings := rfl

@[simp] theorem mkLogsDir_sessions (w : World) : (mkLogsDir w).sessions = w.sessions := rfl

@[simp] theorem mkLogsDir_spawned (w : World) : (mkLogsDir w).spawned = w.spawned := rfl

@[simp] theorem mkLogsDir_msgs (w : World) : (mkLogsDir w).msgs = w.msgs := rfl

@[simp] theorem mkLogsDir_venv (w : World) : (mkLogsDir w).venvExists = w.venvExists := rfl

@[simp] theorem mkLogsDir_nm (w : World) : (mkLogsDir w).nodeModulesExists = w.nodeModulesExists := rfl

@[simp] theorem mkLogsDir_screen (w : World) : (mkLogsDir w).screenInstalled = w.screenInstalled := rfl

@[simp] theorem mkLogsDir_logs (w : World) : (mkLogsDir w).logsDirExists = true := rfl

@[simp] theorem mkLogsDir_envFile (w : World) : (mkLogsDir w).envFile = w.envFile := rfl

@[simp] theorem setupEnvFile_scriptDir (w : World) : (setupEnvFile w).scriptDir = w.scriptDir := by
  unfold setupEnvFile
  split
  · rfl
  · split <;> rfl

@[simp] theorem setupEnvFile_bindings (w : World) : (setupEnvFile w).bindings = w.bindings := by
  unfold setupEnvFile
  split
  · rfl
  · split <;> rfl

@[simp] theorem setupEnvFile_sessions (w : World) : (setupEnvFile w).sessions = w.sessions := by
  unfold setupEnvFile
  split
  · rfl
  · split <;> rfl

@[simp] theorem setupEnvFile_spawned (w : World) : (setupEnvFile w).spawned = w.spawned := by
  unfold setupEnvFile
  split
  · rfl
  · split <;> rfl

@[simp] theorem setupEnvFile_venv (w : World) : (setupEnvFile w).venvExists = w.venvExists := by
  unfold setupEnvFile
  split
  · rfl
  · split <;> rfl

@[simp] theorem setupEnvFile_nm (w : World) : (setupEnvFile w).nodeModulesExists = w.nodeModulesExists := by
  unfold setupEnvFile
  split
  · rfl
  · split <;> rfl

@[simp] theorem setupEnvFile_screen (w : World) : (setupEnvFile w).screenInstalled = w.screenInstalled := by
  unfold setupEnvFile
  split
  · rfl
  · split <;> rfl

@[simp] theorem setupEnvFile_logs (w : World) : (setupEnvFile w).logsDirExists = w.logsDirExists := by
  unfold setupEnvFile
  split
  · rfl
  · split <;> rfl

theorem setupEnvFile_msgs_mono (w : World) (m : String) (h : m ∈ w.msgs) :
    m ∈ (setupEnvFile w).msgs := by
  unfold setupEnvFile
  split
  · exact h
  · split
    · simpa using Or.inl h
    · simpa using Or.inl h

@[simp] theorem quitSessions_scriptDir (pat : String) (w : World) : (quitSessions pat w).scriptDir = w.scriptDir := rfl

@[simp] theorem quitSessions_bindings (pat : String) (w : World) : (quitSessions pat w).bindings = w.bindings := rfl

@[simp] theorem quitSessions_spawned (pat : String) (w : World) : (quitSessions pat w).spawned = w.spawned := rfl

@[simp] theorem quitSessions_msgs (pat : String) (w : World) : (quitSessions pat w).msgs = w.msgs := rfl

@[simp] theorem quitSessions_venv (pat : String) (w : World) : (quitSessions pat w).venvExists = w.venvExists := rfl

@[simp] theorem quitSessions_nm (pat : String) (w : World) : (quitSessions pat w).nodeModulesExists = w.nodeModulesExists := rfl

@[simp] theorem quitSessions_screen (pat : String) (w : World) : (quitSessions pat w).screenInstalled = w.screenInstalled := rfl

@[simp] theorem quitSessions_logs (pat : String) (w : World) : (quitSessions pat w).logsDirExists = w.logsDirExists := rfl

@[simp] theorem quitSessions_sessions (pat : String) (w : World) :
    (quitSessions pat w).sessions = w.sessions.filter (fun s => !(strContains s.name pat)) := rfl

@[simp] theorem ollamaAdvisory_scriptDir (w : World) : (ollamaAdvisory w).scriptDir = w.scriptDir := by
  unfold ollamaAdvisory
  split
  · split <;> rfl
  · rfl

@[simp] theorem ollamaAdvisory_bindings (w : World) : (ollamaAdvisory w).bindings = w.bindings := by
  unfold ollamaAdvisory
  split
  · split <;> rfl
  · rfl

@[simp] theorem ollamaAdvisory_sessions (w : World) : (ollamaAdvisory w).sessions = w.sessions := by
  unfold ollamaAdvisory
  split
  · split <;> rfl
  · rfl

@[simp] theorem ollamaAdvisory_spawned (w : World) : (ollamaAdvisory w).spawned = w.spawned := by
  unfold ollamaAdvisory
  split
  · split <;> rfl
  · rfl

@[simp] theorem ollamaAdvisory_venv (w : World) : (ollamaAdvisory w).venvExists = w.venvExists := by
  unfold ollamaAdvisory
  split
  · split <;> rfl
  · rfl

@[simp] theorem ollamaAdvisory_nm (w : World) : (ollamaAdvisory w).nodeModulesExists = w.nodeModulesExists := by
  unfold ollamaAdvisory
  split
  · split <;> rfl
  · rfl

@[simp] theorem ollamaAdvisory_screen (w : World) : (ollamaAdvisory w).screenInstalled = w.screenInstalled := by
  unfold ollamaAdvisory
  split
  · split <;> rfl
  · rfl

theorem ollamaAdvisory_msgs_mono (w : World) (m : String) (h : m ∈ w.msgs) :
    m ∈ (ollamaAdvisory w).msgs := by
  unfold ollamaAdvisory
  split
  · split <;> simpa using Or.inl h
  · simpa using Or.inl h

@[simp] theorem spawnSession_scriptDir (w : World) (s : Session) : (spawnSession w s).scriptDir = w.scriptDir := rfl

@[simp] theorem spawnSession_bindings (w : World) (s : Session) : (spawnSession w s).bindings = w.bindings := rfl

@[simp] theorem spawnSession_msgs (w : World) (s : Session) : (spawnSession w s).msgs = w.msgs := rfl

@[simp] theorem spawnSession_sessions (w : World) (s : Session) : (spawnSession w s).sessions = w.sessions ++ [s] := rfl

@[simp] theorem spawnSession_spawned (w : World) (s : Session) : (spawnSession w s).spawned = w.spawned ++ [s] := rfl

@[simp] theorem spawnSession_venv (w : World) (s : Session) : (spawnSession w s).venvExists = w.venvExists := rfl

@[simp] theorem spawnSession_nm (w : World) (s : Session) : (spawnSession w s).nodeModulesExists = w.nodeModulesExists := rfl

@[simp] theorem spawnSession_screen (w : World) (s : Session) : (spawnSession w s).screenInstalled = w.screenInstalled := rfl

@[simp] theorem launchSessions_bindings (bp : String) (w : World) : (launchSessions bp w).bindings = w.bindings := by
  unfold launchSessions
  simp

@[simp] theorem launchSessions_scriptDir (bp : String) (w : World) : (launchSessions bp w).scriptDir = w.scriptDir := by
  unfold launchSessions
  simp

@[simp] theorem launchSessions_venv (bp : String) (w : World) : (launchSessions bp w).venvExists = w.venvExists := by
  unfold launchSessions
  simp

@[simp] theorem launchSessions_nm (bp : String) (w : World) : (launchSessions bp w).nodeModulesExists = w.nodeModulesExists := by
  unfold launchSessions
  simp

@[simp] theorem launchSessions_screen (bp : String) (w : World) : (launchSessions bp w).screenInstalled = w.screenInstalled := by
  unfold launchSessions
  simp

@[simp] theorem launchSessions_sessions (bp : String) (w : World) :
    (launchSessions bp w).sessions =
      w.sessions ++ [⟨"webui-backend", backendLaunchCmd w.scriptDir bp⟩,
        ⟨"webui-frontend", frontendLaunchCmd w.scriptDir⟩] := by
  unfold launchSessions
  simp

@[simp] theorem launchSessions_spawned (bp : String) (w : World) :
    (launchSessions bp w).spawned =
      w.spawned ++ [⟨"webui-backend", backendLaunchCmd w.scriptDir bp⟩,
        ⟨"webui-frontend", frontendLaunchCmd w.scriptDir⟩] := by
  unfold launchSessions
  simp

theorem launchSessions_msgs_mono (bp : String) (w : World) (m : String) (h : m ∈ w.msgs) :
    m ∈ (launchSessions bp w).msgs := by
  unfold launchSessions
  simp [h]

/-! ## Kill-loop lemmas -/

theorem killStep_scriptDir (sig : List String) (p : String) (w : World) (pid : Nat) :
    (killStep sig p w pid).scriptDir = w.scriptDir := by
  unfold killStep
  split <;> rfl

theorem killStep_sessions (sig : List String) (p : String) (w : World) (pid : Nat) :
    (killStep sig p w pid).sessions = w.sessions := by
  unfold killStep
  split <;> rfl

theorem killStep_spawned (sig : List String) (p : String) (w : World) (pid : Nat) :
    (killStep sig p w pid).spawned = w.spawned := by
  unfold killStep
  split <;> rfl

theorem killStep_bindings_subset (sig : List String) (p : String) (w : World) (pid : Nat)
    (b : PortBinding) (h : b ∈ (killStep sig p w pid).bindings) : b ∈ w.bindings := by
  unfold killStep at h
  split at h
  · simp only [emit_bindings, killPid_bindings, List.mem_filter] at h
    exact h.1
  · simpa using h

theorem killStep_msgs_mono (sig : List String) (p : String) (w : World) (pid : Nat)
    (m : String) (h : m ∈ w.msgs) : m ∈ (killStep sig p w pid).msgs := by
  unfold killStep
  split <;> simp [h]

theorem killLoop_scriptDir (sig : List String) (p : String) (pids : List Nat) (w : World) :
    (killLoop sig p pids w).scriptDir = w.scriptDir := by
  induction pids generalizing w with
  | nil => rfl
  | cons q qs ih =>
    unfold killLoop at ih ⊢
    rw [List.foldl_cons, ih, killStep_scriptDir]

theorem killLoop_sessions (sig : List String) (p : String) (pids : List Nat) (w : World) :
    (killLoop sig p pids w).sessions = w.sessions := by
  induction pids generalizing w with
  | nil => rfl
  | cons q qs ih =>
    unfold killLoop at ih ⊢
    rw [List.foldl_cons, ih, killStep_sessions]

theorem killLoop_spawned (sig : List String) (p : String) (pids : List Nat) (w : World) :
    (killLoop sig p pids w).spawned = w.spawned := by
  induction pids generalizing w with
  | nil => rfl
  | cons q qs ih =>
    unfold killLoop at ih ⊢
    rw [List.foldl_cons, ih, killStep_spawned]

theorem killLoop_bindings_subset (sig : List String) (p : String) (pids : List Nat) (w : World)
    (b : PortBinding) (h : b ∈ (killLoop sig p pids w).bindings) : b ∈ w.bindings := by
  induction pids generalizing w with
  | nil => exact h
  | cons q qs ih =>
    unfold killLoop at h
    rw [List.foldl_cons] at h
    exact killStep_bindings_subset sig p w q b (ih _ h)

theorem killLoop_msgs_mono (sig : List String) (p : String) (pids : List Nat) (w : World)
    (m : String) (h : m ∈ w.msgs) : m ∈ (killLoop sig p pids w).msgs := by
  induction pids generalizing w with
  | nil => exact h
  | cons q qs ih =>
    unfold killLoop at ih ⊢
    rw [List.foldl_cons]
    exact ih _ (killStep_msgs_mono sig p w q m h)

theorem psCommand_eq_some_of_mem (w : World) (b : PortBinding) (hb : b ∈ w.bindings) :
    ∃ y, y ∈ w.bindings ∧ y.pid = b.pid ∧ psCommand w b.pid = some y.cmd := by
  unfold psCommand
  cases hfind : w.bindings.find? (fun x => x.pid == b.pid) with
  | none =>
    exfalso
    have := List.find?_eq_none.1 hfind b hb
    simp at this
  | some y =>
    refine ⟨y, List.mem_of_find?_eq_some hfind, ?_, by simp⟩
    have := List.find?_some hfind
    simpa using this

theorem killStep_preserves_foreign (sig : List String) (p : String) (w : World) (pid : Nat)
    (b : PortBinding) (hb : b ∈ w.bindings)
    (hf : ∀ b2 ∈ w.bindings, b2.pid = b.pid → matchesSig b2.cmd sig = false) :
    b ∈ (killStep sig p w pid).bindings := by
  unfold killStep
  split
  · rename_i h
    simp only [emit_bindings, killPid_bindings, List.mem_filter]
    refine ⟨hb, ?_⟩
    by_cases hpid : b.pid = pid
    · exfalso
      obtain ⟨y, hy, hypid, hcmd⟩ := psCommand_eq_some_of_mem w b hb
      rw [← hpid, hcmd] at h
      simp only [Option.getD_some] at h
      rw [hf y hy hypid] at h
      cases h
    · simp [hpid]
  · simpa using hb

theorem killLoop_preserves_foreign (sig : List String) (p : String) (pids : List Nat) (w : World)
    (b : PortBinding) (hb : b ∈ w.bindings)
    (hf : ∀ b2 ∈ w.bindings, b2.pid = b.pid → matchesSig b2.cmd sig = false) :
    b ∈ (killLoop sig p pids w).bindings := by
  induction pids generalizing w with
  | nil => exact hb
  | cons q qs ih =>
    unfold killLoop at ih ⊢
    rw [List.foldl_cons]
    exact ih (killStep sig p w q)
      (killStep_preserves_foreign sig p w q b hb hf)
      (fun b2 h2 => hf b2 (killStep_bindings_subset sig p w q b2 h2))

theorem killLoop_warns (sig : List String) (p : String) (pids : List Nat) (w : World)
    (b : PortBinding) (hb : b ∈ w.bindings)
    (hf : ∀ b2 ∈ w.bindings, b2.pid = b.pid → matchesSig b2.cmd sig = false)
    (hin : b.pid ∈ pids) :
    warnForeign b.pid p ∈ (killLoop sig p pids w).msgs := by
  induction pids generalizing w with
  | nil => cases hin
  | cons q qs ih =>
    unfold killLoop at ih ⊢
    rw [List.foldl_cons]
    by_cases hq : q = b.pid
    · subst hq
      apply killLoop_msgs_mono
      obtain ⟨y, hy, hypid, hcmd⟩ := psCommand_eq_some_of_mem w b hb
      unfold killStep
      rw [hcmd]
      simp [hf y hy hypid]
    · have hin2 : b.pid ∈ qs := by
        rcases List.mem_cons.1 hin with h | h
        · exact absurd h.symm hq
        · exact h
      exact ih (killStep sig p w q)
        (killStep_preserves_foreign sig p w q b hb hf)
        (fun b2 h2 => hf b2 (killStep_bindings_subset sig p w q b2 h2))
        hin2

theorem killLoop_clears (sig : List String) (p : String) (pids : List Nat) (w : World)
    (hwf : ∀ b1, b1 ∈ w.bindings → ∀ b2, b2 ∈ w.bindings → b1.pid = b2.pid →
      b1.cmd = b2.cmd ∧ b1.killable = b2.killable)
    (hkill : ∀ b, b ∈ w.bindings → matchesSig b.cmd sig = true → b.killable = true)
    (b : PortBinding) (hb : b ∈ (killLoop sig p pids w).bindings) (hpid : b.pid ∈ pids)
    (hmatch : matchesSig b.cmd sig = true) : False := by
  induction pids generalizing w with
  | nil => cases hpid
  | cons q qs ih =>
    unfold killLoop at ih hb
    rw [List.foldl_cons] at hb
    have hsub : ∀ x, x ∈ (killStep sig p w q).bindings → x ∈ w.bindings :=
      fun x hx => killStep_bindings_subset sig p w q x hx
    rcases List.mem_cons.1 hpid with hq | hqs
    · have hbw2 : b ∈ (killStep sig p w q).bindings :=
        killLoop_bindings_subset sig p qs (killStep sig p w q) b hb
      have hbw : b ∈ w.bindings := hsub b hbw2
      obtain ⟨y, hy, hypid, hcmd⟩ := psCommand_eq_some_of_mem w b hbw
      have hycmd : y.cmd = b.cmd := (hwf y hy b hbw hypid).1
      have hcond : matchesSig ((psCommand w q).getD ("")) sig = true := by
        rw [← hq, hcmd]
        simpa [hycmd] using hmatch
      have hbk : b.killable = true := hkill b hbw hmatch
      unfold killStep at hbw2
      rw [if_pos hcond] at hbw2
      simp only [emit_bindings, killPid_bindings, List.mem_filter] at hbw2
      rw [← hq] at hbw2
      simp [hbk] at hbw2
    · exact ih (killStep sig p w q)
        (fun b1 h1 b2 h2 => hwf b1 (hsub b1 h1) b2 (hsub b2 h2))
        (fun x hx => hkill x (hsub x hx))
        hb hqs

@[simp] theorem ite_emit_bindings (c : Prop) [Decidable c] (w : World) (m : String) :
    (if c then w else emit w m).bindings = w.bindings := by
  split <;> rfl

@[simp] theorem ite_emit_sessions (c : Prop) [Decidable c] (w : World) (m : String) :
    (if c then w else emit w m).sessions = w.sessions := by
  split <;> rfl

@[simp] theorem ite_emit_spawned (c : Prop) [Decidable c] (w : World) (m : String) :
    (if c then w else emit w m).spawned = w.spawned := by
  split <;> rfl

@[simp] theorem ite_emit_scriptDir (c : Prop) [Decidable c] (w : World) (m : String) :
    (if c then w else emit w m).scriptDir = w.scriptDir := by
  split <;> rfl

@[simp] theorem ite_emit_venv (c : Prop) [Decidable c] (w : World) (m : String) :
    (if c then w else emit w m).venvExists = w.venvExists := by
  split <;> rfl

@[simp] theorem ite_emit_nm (c : Prop) [Decidable c] (w : World) (m : String) :
    (if c then w else emit w m).nodeModulesExists = w.nodeModulesExists := by
  split <;> rfl

@[simp] theorem ite_emit_screen (c : Prop) [Decidable c] (w : World) (m : String) :
    (if c then w else emit w m).screenInstalled = w.screenInstalled := by
  split <;> rfl

theorem ite_emit_msgs_mono (c : Prop) [Decidable c] (w : World) (m m2 : String)
    (h : m ∈ w.msgs) : m ∈ (if c then w else emit w m2).msgs := by
  split
  · exact h
  · simp [h]

@[simp] theorem cleanupSessions_bindings (w : World) : (cleanupSessions w).bindings = w.bindings := rfl

@[simp] theorem cleanupSessions_spawned (w : World) : (cleanupSessions w).spawned = w.spawned := rfl

@[simp] theorem cleanupSessions_msgs (w : World) : (cleanupSessions w).msgs = w.msgs := rfl

@[simp] theorem cleanupSessions_scriptDir (w : World) : (cleanupSessions w).scriptDir = w.scriptDir := rfl

@[simp] theorem cleanupSessions_venv (w : World) : (cleanupSessions w).venvExists = w.venvExists := rfl

@[simp] theorem cleanupSessions_nm (w : World) : (cleanupSessions w).nodeModulesExists = w.nodeModulesExists := rfl

@[simp] theorem cleanupSessions_screen (w : World) : (cleanupSessions w).screenInstalled = w.screenInstalled := rfl

@[simp] theorem cleanupSessions_sessions (w : World) :
    (cleanupSessions w).sessions =
      (w.sessions.filter (fun s => !(strContains s.name ("webui-backend")))).filter
        (fun s => !(strContains s.name ("webui-frontend"))) := rfl

theorem killStep_venv (sig : List String) (p : String) (w : World) (pid : Nat) :
    (killStep sig p w pid).venvExists = w.venvExists := by
  unfold killStep
  split <;> rfl

theorem killStep_nm (sig : List String) (p : String) (w : World) (pid : Nat) :
    (killStep sig p w pid).nodeModulesExists = w.nodeModulesExists := by
  unfold killStep
  split <;> rfl

theorem killStep_screen (sig : List String) (p : String) (w : World) (pid : Nat) :
    (killStep sig p w pid).screenInstalled = w.screenInstalled := by
  unfold killStep
  split <;> rfl

theorem killLoop_venv (sig : List String) (p : String) (pids : List Nat) (w : World) :
    (killLoop sig p pids w).venvExists = w.venvExists := by
  induction pids generalizing w with
  | nil => rfl
  | cons q qs ih =>
    unfold killLoop at ih ⊢
    rw [List.foldl_cons, ih, killStep_venv]

theorem killLoop_nm (sig : List String) (p : String) (pids : List Nat) (w : World) :
    (killLoop sig p pids w).nodeModulesExists = w.nodeModulesExists := by
  induction pids generalizing w with
  | nil => rfl
  | cons q qs ih =>
    unfold killLoop at ih ⊢
    rw [List.foldl_cons, ih, killStep_nm]

theorem killLoop_screen (sig : List String) (p : String) (pids : List Nat) (w : World) :
    (killLoop sig p pids w).screenInstalled = w.screenInstalled := by
  induction pids generalizing w with
  | nil => rfl
  | cons q qs ih =>
    unfold killLoop at ih ⊢
    rw [List.foldl_cons, ih, killStep_screen]

@[simp] theorem stageKills_sessions (bp fp : String) (w : World) :
    (stageKills bp fp w).sessions = w.sessions := by
  unfold stageKills
  rw [killLoop_sessions, killLoop_sessions]

@[simp] theorem stageKills_spawned (bp fp : String) (w : World) :
    (stageKills bp fp w).spawned = w.spawned := by
  unfold stageKills
  rw [killLoop_spawned, killLoop_spawned]

@[simp] theorem stageKills_scriptDir (bp fp : String) (w : World) :
    (stageKills bp fp w).scriptDir = w.scriptDir := by
  unfold stageKills
  rw [killLoop_scriptDir, killLoop_scriptDir]

@[simp] theorem stageKills_venv (bp fp : String) (w : World) :
    (stageKills bp fp w).venvExists = w.venvExists := by
  unfold stageKills
  rw [killLoop_venv, killLoop_venv]

@[simp] theorem stageKills_nm (bp fp : String) (w : World) :
    (stageKills bp fp w).nodeModulesExists = w.nodeModulesExists := by
  unfold stageKills
  rw [killLoop_nm, killLoop_nm]

@[simp] theorem stageKills_screen (bp fp : String) (w : World) :
    (stageKills bp fp w).screenInstalled = w.screenInstalled := by
  unfold stageKills
  rw [killLoop_screen, killLoop_screen]

theorem stageKills_bindings_subset (bp fp : String) (w : World) (b : PortBinding)
    (h : b ∈ (stageKills bp fp w).bindings) : b ∈ w.bindings := by
  unfold stageKills at h
  exact killLoop_bindings_subset _ _ _ _ _ (killLoop_bindings_subset _ _ _ _ _ h)

theorem stageKills_msgs_mono (bp fp : String) (w : World) (m : String) (h : m ∈ w.msgs) :
    m ∈ (stageKills bp fp w).msgs := by
  unfold stageKills
  exact killLoop_msgs_mono _ _ _ _ _ (killLoop_msgs_mono _ _ _ _ _ h)

theorem pid_mem_lsofPids (w : World) (b : PortBinding) (p : String)
    (hb : b ∈ w.bindings) (hp : b.port = p) : b.pid ∈ lsofPids w p := by
  unfold lsofPids
  simp only [List.mem_map, List.mem_filter]
  exact ⟨b, ⟨hb, by simp [hp]⟩, rfl⟩

theorem stageKills_preserves_foreign (bp fp : String) (w : World) (b : PortBinding)
    (hb : b ∈ w.bindings)
    (hf : ∀ b2 ∈ w.bindings, b2.pid = b.pid →
      matchesSig b2.cmd backendSig = false ∧ matchesSig b2.cmd frontendSig = false) :
    b ∈ (stageKills bp fp w).bindings := by
  unfold stageKills
  have h1 : b ∈ (killLoop backendSig bp (lsofPids w bp) w).bindings :=
    killLoop_preserves_foreign _ _ _ _ _ hb (fun b2 h2 hp => (hf b2 h2 hp).1)
  exact killLoop_preserves_foreign _ _ _ _ _ h1
    (fun b2 h2 hp => (hf b2 (killLoop_bindings_subset _ _ _ _ _ h2) hp).2)

theorem stageKills_warns (bp fp : String) (w : World) (b : PortBinding)
    (hb : b ∈ w.bindings)
    (hf : ∀ b2 ∈ w.bindings, b2.pid = b.pid →
      matchesSig b2.cmd backendSig = false ∧ matchesSig b2.cmd frontendSig = false)
    (hp : b.port = bp ∨ b.port = fp) :
    warnForeign b.pid b.port ∈ (stageKills bp fp w).msgs := by
  unfold stageKills
  rcases hp with hp | hp
  · apply killLoop_msgs_mono
    rw [hp]
    exact killLoop_warns _ _ _ _ _ hb (fun b2 h2 hq => (hf b2 h2 hq).1)
      (pid_mem_lsofPids w b bp hb hp)
  · rw [hp]
    have h1 : b ∈ (killLoop backendSig bp (lsofPids w bp) w).bindings :=
      killLoop_preserves_foreign _ _ _ _ _ hb (fun b2 h2 hq => (hf b2 h2 hq).1)
    exact killLoop_warns _ _ _ _ _ h1
      (fun b2 h2 hq => (hf b2 (killLoop_bindings_subset _ _ _ _ _ h2) hq).2)
      (pid_mem_lsofPids w b fp hb hp)

theorem stageKills_clear_backend (bp fp : String) (w : World)
    (hwf : ∀ b1, b1 ∈ w.bindings → ∀ b2, b2 ∈ w.bindings → b1.pid = b2.pid →
      b1.cmd = b2.cmd ∧ b1.killable = b2.killable)
    (hkill : ∀ b, b ∈ w.bindings → matchesSig b.cmd backendSig = true → b.killable = true)
    (b : PortBinding) (hb : b ∈ (stageKills bp fp w).bindings) (hport : b.port = bp)
    (hmatch : matchesSig b.cmd backendSig = true) : False := by
  unfold stageKills at hb
  have hb1 : b ∈ (killLoop backendSig bp (lsofPids w bp) w).bindings :=
    killLoop_bindings_subset _ _ _ _ _ hb
  have hbw : b ∈ w.bindings := killLoop_bindings_subset _ _ _ _ _ hb1
  exact killLoop_clears backendSig bp (lsofPids w bp) w hwf hkill b hb1
    (pid_mem_lsofPids w b bp hbw hport) hmatch

theorem stageKills_clear_frontend (bp fp : String) (w : World)
    (hwf : ∀ b1, b1 ∈ w.bindings → ∀ b2, b2 ∈ w.bindings → b1.pid = b2.pid →
      b1.cmd = b2.cmd ∧ b1.killable = b2.killable)
    (hkill : ∀ b, b ∈ w.bindings → matchesSig b.cmd frontendSig = true → b.killable = true)
    (b : PortBinding) (hb : b ∈ (stageKills bp fp w).bindings) (hport : b.port = fp)
    (hmatch : matchesSig b.cmd frontendSig = true) : False := by
  unfold stageKills at hb
  have hbw : b ∈ w.bindings :=
    killLoop_bindings_subset _ _ _ _ _ (killLoop_bindings_subset _ _ _ _ _ hb)
  have hsub : ∀ x, x ∈ (killLoop backendSig bp (lsofPids w bp) w).bindings → x ∈ w.bindings :=
    fun x hx => killLoop_bindings_subset _ _ _ _ _ hx
  exact killLoop_clears frontendSig fp (lsofPids w fp)
    (killLoop backendSig bp (lsofPids w bp) w)
    (fun b1 h1 b2 h2 hq => hwf b1 (hsub b1 h1) b2 (hsub b2 h2) hq)
    (fun x hx hm => hkill x (hsub x hx) hm)
    b hb (pid_mem_lsofPids w b fp hbw hport) hmatch

theorem checkPort_eq_nil (w : World) (p : String) (sig : List String)
    (hwf : ∀ b1, b1 ∈ w.bindings → ∀ b2, b2 ∈ w.bindings → b1.pid = b2.pid →
      b1.cmd = b2.cmd ∧ b1.killable = b2.killable)
    (hclear : ∀ b, b ∈ w.bindings → b.port = p → matchesSig b.cmd sig = true → False) :
    checkPort w p sig = [] := by
  rw [List.eq_nil_iff_forall_not_mem]
  intro c hc
  unfold checkPort at hc
  simp only [List.mem_filter, List.mem_filterMap] at hc
  obtain ⟨⟨pid, hpid, hps⟩, hm⟩ := hc
  unfold lsofPids at hpid
  simp only [List.mem_map, List.mem_filter] at hpid
  obtain ⟨x, ⟨hx, hxp⟩, hxpid⟩ := hpid
  unfold psCommand at hps
  cases hfind : w.bindings.find? (fun b => b.pid == pid) with
  | none => rw [hfind] at hps; cases hps
  | some y =>
    rw [hfind] at hps
    have hcy : y.cmd = c := by simpa using hps
    have hy : y ∈ w.bindings := List.mem_of_find?_eq_some hfind
    have hypid : y.pid = pid := by
      have := List.find?_some hfind
      simpa using this
    have hxcmd : x.cmd = y.cmd :=
      (hwf x hx y hy (by rw [hxpid, hypid])).1
    apply hclear x hx (by simpa using hxp)
    rw [hxcmd, hcy]
    exact hm

theorem emit_msgs_mono (w : World) (m m2 : String) (h : m ∈ w.msgs) : m ∈ (emit w m2).msgs := by
  simp [h]

theorem emitAll_msgs_mono (w : World) (m : String) (ms : List String) (h : m ∈ w.msgs) :
    m ∈ (emitAll w ms).msgs := by
  simp [h]

/-! ## launchPhase and stopPhase lemmas -/

@[simp] theorem launchPhase_bindings (bp fp : String) (w : World) :
    (launchPhase bp fp w).bindings = w.bindings := by
  unfold launchPhase
  simp

@[simp] theorem launchPhase_scriptDir (bp fp : String) (w : World) :
    (launchPhase bp fp w).scriptDir = w.scriptDir := by
  unfold launchPhase
  simp

@[simp] theorem launchPhase_sessions (bp fp : String) (w : World) :
    (launchPhase bp fp w).sessions =
      w.sessions ++ [⟨"webui-backend", backendLaunchCmd w.scriptDir bp⟩,
        ⟨"webui-frontend", frontendLaunchCmd w.scriptDir⟩] := by
  unfold launchPhase
  simp

@[simp] theorem launchPhase_spawned (bp fp : String) (w : World) :
    (launchPhase bp fp w).spawned =
      w.spawned ++ [⟨"webui-backend", backendLaunchCmd w.scriptDir bp⟩,
        ⟨"webui-frontend", frontendLaunchCmd w.scriptDir⟩] := by
  unfold launchPhase
  simp

@[simp] theorem launchPhase_venv (bp fp : String) (w : World) :
    (launchPhase bp fp w).venvExists = w.venvExists := by
  unfold launchPhase
  simp [launchSessions]

@[simp] theorem launchPhase_nm (bp fp : String) (w : World) :
    (launchPhase bp fp w).nodeModulesExists = w.nodeModulesExists := by
  unfold launchPhase
  simp [launchSessions]

@[simp] theorem launchPhase_screen (bp fp : String) (w : World) :
    (launchPhase bp fp w).screenInstalled = w.screenInstalled := by
  unfold launchPhase
  simp [launchSessions]

theorem launchPhase_msgs_mono (bp fp : String) (w : World) (m : String) (h : m ∈ w.msgs) :
    m ∈ (launchPhase bp fp w).msgs := by
  unfold launchPhase
  apply emit_msgs_mono
  apply launchSessions_msgs_mono
  apply ollamaAdvisory_msgs_mono
  apply ite_emit_msgs_mono
  apply ite_emit_msgs_mono
  exact h

theorem stopPhase_bindings_subset (bp fp : String) (w : World) (b : PortBinding)
    (h : b ∈ (stopPhase bp fp w).bindings) : b ∈ w.bindings := by
  unfold stopPhase at h
  simp only [emit_bindings] at h
  have h2 := stageKills_bindings_subset _ _ _ _ h
  simpa using h2

theorem stopPhase_preserves_foreign (bp fp : String) (w : World) (b : PortBinding)
    (hb : b ∈ w.bindings)
    (hf : ∀ b2 ∈ w.bindings, b2.pid = b.pid →
      matchesSig b2.cmd backendSig = false ∧ matchesSig b2.cmd frontendSig = false) :
    b ∈ (stopPhase bp fp w).bindings := by
  unfold stopPhase
  simp only [emit_bindings]
  apply stageKills_preserves_foreign
  · simpa using hb
  · intro b2 h2 hq
    apply hf b2 _ hq
    simpa using h2

theorem stopPhase_msgs_mono (bp fp : String) (w : World) (m : String) (h : m ∈ w.msgs) :
    m ∈ (stopPhase bp fp w).msgs := by
  unfold stopPhase
  apply emit_msgs_mono
  apply stageKills_msgs_mono
  simpa using emit_msgs_mono _ _ _ h

@[simp] theorem stopPhase_spawned (bp fp : String) (w : World) :
    (stopPhase bp fp w).spawned = w.spawned := by
  unfold stopPhase
  simp

@[simp] theorem stopPhase_venv (bp fp : String) (w : World) :
    (stopPhase bp fp w).venvExists = w.venvExists := by
  unfold stopPhase
  simp

@[simp] theorem stopPhase_nm (bp fp : String) (w : World) :
    (stopPhase bp fp w).nodeModulesExists = w.nodeModulesExists := by
  unfold stopPhase
  simp

@[simp] theorem stopPhase_screen (bp fp : String) (w : World) :
    (stopPhase bp fp w).screenInstalled = w.screenInstalled := by
  unfold stopPhase
  simp

theorem managedFilter_nil (l : List Session) :
    ((l.filter (fun s => !(strContains s.name ("webui-backend")))).filter
      (fun s => !(strContains s.name ("webui-frontend")))).filter
      (fun s => strContains s.name ("webui-backend") || strContains s.name ("webui-frontend")) = [] := by
  rw [List.eq_nil_iff_forall_not_mem]
  intro s hs
  simp only [List.mem_filter] at hs
  obtain ⟨⟨⟨_, hb⟩, hf⟩, hor⟩ := hs
  simp only [Bool.not_eq_true'] at hb hf
  rw [hb, hf] at hor
  cases hor

theorem stopPhase_managed (bp fp : String) (w : World) :
    managedSessions (stopPhase bp fp w) = [] := by
  unfold stopPhase managedSessions
  simp only [emit_sessions, stageKills_sessions, cleanupSessions_sessions]
  exact managedFilter_nil _

/-! ## afterGate lemmas -/

theorem afterGate_exit_nonstop (arg bp fp : String) (w : World) (h : ¬ arg = "stop") :
    (afterGate arg bp fp w).2 = none := by
  unfold afterGate
  rw [if_neg h]

theorem afterGate_exit_stop (bp fp : String) (w : World) :
    (afterGate ("stop") bp fp w).2 = some 0 := by
  unfold afterGate
  rw [if_pos rfl]

theorem afterGate_sessions_nonstop (arg bp fp : String) (w : World) (h : ¬ arg = "stop") :
    (afterGate arg bp fp w).1.sessions =
      w.sessions ++ [⟨"webui-backend", backendLaunchCmd w.scriptDir bp⟩,
        ⟨"webui-frontend", frontendLaunchCmd w.scriptDir⟩] := by
  unfold afterGate
  rw [if_neg h]
  simp

theorem afterGate_managed_stop (bp fp : String) (w : World) :
    managedSessions (afterGate ("stop") bp fp w).1 = [] := by
  unfold afterGate
  rw [if_pos rfl]
  exact stopPhase_managed bp fp (launchPhase bp fp w)

theorem afterGate_spawned (arg bp fp : String) (w : World) :
    (afterGate arg bp fp w).1.spawned =
      w.spawned ++ [⟨"webui-backend", backendLaunchCmd w.scriptDir bp⟩,
        ⟨"webui-frontend", frontendLaunchCmd w.scriptDir⟩] := by
  unfold afterGate
  split <;> simp

theorem afterGate_bindings_subset (arg bp fp : String) (w : World) (b : PortBinding)
    (h : b ∈ (afterGate arg bp fp w).1.bindings) : b ∈ w.bindings := by
  unfold afterGate at h
  split at h
  · have h2 := stopPhase_bindings_subset _ _ _ _ h
    simpa using h2
  · simpa using h

theorem afterGate_preserves_foreign (arg bp fp : String) (w : World) (b : PortBinding)
    (hb : b ∈ w.bindings)
    (hf : ∀ b2 ∈ w.bindings, b2.pid = b.pid →
      matchesSig b2.cmd backendSig = false ∧ matchesSig b2.cmd frontendSig = false) :
    b ∈ (afterGate arg bp fp w).1.bindings := by
  unfold afterGate
  split
  · apply stopPhase_preserves_foreign
    · simpa using hb
    · intro b2 h2 hq
      apply hf b2 _ hq
      simpa using h2
  · simpa using hb

theorem afterGate_msgs_mono (arg bp fp : String) (w : World) (m : String) (h : m ∈ w.msgs) :
    m ∈ (afterGate arg bp fp w).1.msgs := by
  unfold afterGate
  split
  · exact stopPhase_msgs_mono _ _ _ _ (launchPhase_msgs_mono _ _ _ _ h)
  · exact launchPhase_msgs_mono _ _ _ _ h

theorem afterGate_venv (arg bp fp : String) (w : World) :
    (afterGate arg bp fp w).1.venvExists = w.venvExists := by
  unfold afterGate
  split <;> simp

theorem afterGate_nm (arg bp fp : String) (w : World) :
    (afterGate arg bp fp w).1.nodeModulesExists = w.nodeModulesExists := by
  unfold afterGate
  split <;> simp

theorem afterGate_screen (arg bp fp : String) (w : World) :
    (afterGate arg bp fp w).1.screenInstalled = w.screenInstalled := by
  unfold afterGate
  split <;> simp

/-! ## portGate lemmas -/

theorem portGate_eq_afterGate (arg bp fp : String) (w : World)
    (h1 : checkPort w fp frontendSig = []) (h2 : checkPort w bp backendSig = []) :
    portGate arg bp fp w = afterGate arg bp fp w := by
  unfold portGate
  simp [h1, h2]

theorem portGate_exit_frontend (arg bp fp : String) (w : World)
    (h : ¬ checkPort w fp frontendSig = []) :
    portGate arg bp fp w = (emitAll (emit w (portErr fp)) (checkPort w fp frontendSig), some 1) := by
  unfold portGate
  simp [h]

theorem portGate_exit_backend (arg bp fp : String) (w : World)
    (h1 : checkPort w fp frontendSig = []) (h2 : ¬ checkPort w bp backendSig = []) :
    portGate arg bp fp w = (emitAll (emit w (portErr bp)) (checkPort w bp backendSig), some 1) := by
  unfold portGate
  simp [h1, h2]

theorem portGate_bindings_subset (arg bp fp : String) (w : World) (b : PortBinding)
    (h : b ∈ (portGate arg bp fp w).1.bindings) : b ∈ w.bindings := by
  unfold portGate at h
  split at h
  · split at h
    · exact afterGate_bindings_subset arg bp fp w b h
    · simpa using h
  · simpa using h

theorem portGate_preserves_foreign (arg bp fp : String) (w : World) (b : PortBinding)
    (hb : b ∈ w.bindings)
    (hf : ∀ b2 ∈ w.bindings, b2.pid = b.pid →
      matchesSig b2.cmd backendSig = false ∧ matchesSig b2.cmd frontendSig = false) :
    b ∈ (portGate arg bp fp w).1.bindings := by
  unfold portGate
  split
  · split
    · exact afterGate_preserves_foreign arg bp fp w b hb hf
    · simpa using hb
  · simpa using hb

theorem portGate_msgs_mono (arg bp fp : String) (w : World) (m : String) (h : m ∈ w.msgs) :
    m ∈ (portGate arg bp fp w).1.msgs := by
  unfold portGate
  split
  · split
    · exact afterGate_msgs_mono arg bp fp w m h
    · exact emitAll_msgs_mono _ _ _ (emit_msgs_mono _ _ _ h)
  · exact emitAll_msgs_mono _ _ _ (emit_msgs_mono _ _ _ h)

theorem portGate_venv (arg bp fp : String) (w : World) :
    (portGate arg bp fp w).1.venvExists = w.venvExists := by
  unfold portGate
  split
  · split
    · exact afterGate_venv arg bp fp w
    · simp
  · simp

theorem portGate_nm (arg bp fp : String) (w : World) :
    (portGate arg bp fp w).1.nodeModulesExists = w.nodeModulesExists := by
  unfold portGate
  split
  · split
    · exact afterGate_nm arg bp fp w
    · simp
  · simp

theorem portGate_screen (arg bp fp : String) (w : World) :
    (portGate arg bp fp w).1.screenInstalled = w.screenInstalled := by
  unfold portGate
  split
  · split
    · exact afterGate_screen arg bp fp w
    · simp
  · simp

/-! ## Unkillable processes survive every kill attempt -/

theorem killStep_preserves_unkillable (sig : List String) (p : String) (w : World) (pid : Nat)
    (b : PortBinding) (hb : b ∈ w.bindings) (hk : b.killable = false) :
    b ∈ (killStep sig p w pid).bindings := by
  unfold killStep
  split
  · simp only [emit_bindings, killPid_bindings, List.mem_filter]
    exact ⟨hb, by simp [hk]⟩
  · simpa using hb

theorem killLoop_preserves_unkillable (sig : List String) (p : String) (pids : List Nat)
    (w : World) (b : PortBinding) (hb : b ∈ w.bindings) (hk : b.killable = false) :
    b ∈ (killLoop sig p pids w).bindings := by
  induction pids generalizing w with
  | nil => exact hb
  | cons q qs ih =>
    unfold killLoop at ih ⊢
    rw [List.foldl_cons]
    exact ih (killStep sig p w q) (killStep_preserves_unkillable sig p w q b hb hk)

theorem stageKills_preserves_unkillable (bp fp : String) (w : World) (b : PortBinding)
    (hb : b ∈ w.bindings) (hk : b.killable = false) :
    b ∈ (stageKills bp fp w).bindings := by
  unfold stageKills
  exact killLoop_preserves_unkillable _ _ _ _ b
    (killLoop_preserves_unkillable _ _ _ _ b hb hk) hk

/-! ## checkPort membership facts -/

theorem cmd_mem_checkPort (w : World) (p : String) (sig : List String) (b : PortBinding)
    (hb : b ∈ w.bindings)
    (hwf : ∀ b1, b1 ∈ w.bindings → ∀ b2, b2 ∈ w.bindings → b1.pid = b2.pid →
      b1.cmd = b2.cmd ∧ b1.killable = b2.killable)
    (hport : b.port = p) (hm : matchesSig b.cmd sig = true) :
    b.cmd ∈ checkPort w p sig := by
  unfold checkPort
  simp only [List.mem_filter, List.mem_filterMap]
  refine ⟨⟨b.pid, pid_mem_lsofPids w b p hb hport, ?_⟩, hm⟩
  obtain ⟨y, hy, hypid, hcmd⟩ := psCommand_eq_some_of_mem w b hb
  rw [hcmd, (hwf y hy b hb hypid).1]

theorem checkPort_mem_origin (w : World) (p : String) (sig : List String) (c : String)
    (h : c ∈ checkPort w p sig) :
    ∃ b2, b2 ∈ w.bindings ∧ b2.cmd = c ∧ matchesSig c sig = true := by
  unfold checkPort at h
  simp only [List.mem_filter, List.mem_filterMap] at h
  obtain ⟨⟨pid, _, hps⟩, hm⟩ := h
  unfold psCommand at hps
  cases hfind : w.bindings.find? (fun x => x.pid == pid) with
  | none => rw [hfind] at hps; cases hps
  | some y =>
    rw [hfind] at hps
    exact ⟨y, List.mem_of_find?_eq_some hfind, by simpa using hps, hm⟩

/-! ## runLinear lemmas -/

theorem runLinear_happy (arg : String) (w : World)
    (hv : w.venvExists = true) (hn : w.nodeModulesExists = true) (hs : w.screenInstalled = true) :
    runLinear arg w = portGate arg (bportW w) (fportW w)
      (stageKills (bportW w) (fportW w) (cleanupSessions (setupEnvFile (mkLogsDir w)))) := by
  simp only [runLinear, mkLogsDir_venv, mkLogsDir_nm, setupEnvFile_screen, mkLogsDir_screen,
    hv, hn, hs, if_true]

theorem runLinear_bindings_subset (arg : String) (w : World) (b : PortBinding)
    (h : b ∈ (runLinear arg w).1.bindings) : b ∈ w.bindings := by
  simp only [runLinear] at h
  split at h
  · split at h
    · split at h
      · have h2 := portGate_bindings_subset _ _ _ _ b h
        have h3 := stageKills_bindings_subset _ _ _ _ h2
        simpa using h3
      · simpa using h
    · simpa using h
  · simpa using h

theorem runLinear_preserves_foreign (arg : String) (w : World) (b : PortBinding)
    (hb : b ∈ w.bindings)
    (hf : ∀ b2 ∈ w.bindings, b2.pid = b.pid →
      matchesSig b2.cmd backendSig = false ∧ matchesSig b2.cmd frontendSig = false) :
    b ∈ (runLinear arg w).1.bindings := by
  simp only [runLinear]
  split
  · split
    · split
      · apply portGate_preserves_foreign
        · apply stageKills_preserves_foreign
          · simpa using hb
          · intro b2 h2 hq
            apply hf b2 _ hq
            simpa using h2
        · intro b2 h2 hq
          apply hf b2 _ hq
          have h3 := stageKills_bindings_subset _ _ _ _ h2
          simpa using h3
      · simpa using hb
    · simpa using hb
  · simpa using hb

theorem runLinear_msgs_mono (arg : String) (w : World) (m : String) (h : m ∈ w.msgs) :
    m ∈ (runLinear arg w).1.msgs := by
  simp only [runLinear]
  split
  · split
    · split
      · apply portGate_msgs_mono
        apply stageKills_msgs_mono
        rw [cleanupSessions_msgs]
        apply setupEnvFile_msgs_mono
        simpa using h
      · apply emit_msgs_mono
        apply setupEnvFile_msgs_mono
        simpa using h
    · exact emit_msgs_mono _ _ _ (by simpa using h)
  · exact emit_msgs_mono _ _ _ (by simpa using h)

theorem runLinear_venv (arg : String) (w : World) :
    (runLinear arg w).1.venvExists = w.venvExists := by
  simp only [runLinear]
  split
  · split
    · split
      · rw [portGate_venv]
        simp
      · simp
    · simp
  · simp

theorem runLinear_nm (arg : String) (w : World) :
    (runLinear arg w).1.nodeModulesExists = w.nodeModulesExists := by
  simp only [runLinear]
  split
  · split
    · split
      · rw [portGate_nm]
        simp
      · simp
    · simp
  · simp

theorem runLinear_screen (arg : String) (w : World) :
    (runLinear arg w).1.screenInstalled = w.screenInstalled := by
  simp only [runLinear]
  split
  · split
    · split
      · rw [portGate_screen]
        simp
      · simp
    · simp
  · simp

theorem runLinear_warns (arg : String) (w : World) (b : PortBinding)
    (hv : w.venvExists = true) (hn : w.nodeModulesExists = true) (hs : w.screenInstalled = true)
    (hb : b ∈ w.bindings)
    (hport : b.port = bportW w ∨ b.port = fportW w)
    (hf : ∀ b2 ∈ w.bindings, b2.pid = b.pid →
      matchesSig b2.cmd backendSig = false ∧ matchesSig b2.cmd frontendSig = false) :
    warnForeign b.pid b.port ∈ (runLinear arg w).1.msgs := by
  rw [runLinear_happy arg w hv hn hs]
  apply portGate_msgs_mono
  apply stageKills_warns
  · simpa using hb
  · intro b2 h2 hq
    apply hf b2 _ hq
    simpa using h2
  · exact hport

/-! ## runScript lemmas -/

theorem runScript_of_runLinear_some (arg : String) (w : World) (c : Nat)
    (h : (runLinear arg w).2 = some c) :
    runScript arg w = ((runLinear arg w).1, c) := by
  unfold runScript
  have hp : runLinear arg w = ((runLinear arg w).1, some c) := Prod.ext rfl h
  rw [hp]

theorem runScript_of_runLinear_none (arg : String) (w : World)
    (h : (runLinear arg w).2 = none) (h2 : ¬ arg = "restart") :
    runScript arg w = ((runLinear arg w).1, 0) := by
  unfold runScript
  have hp : runLinear arg w = ((runLinear arg w).1, none) := Prod.ext rfl h
  rw [hp]
  simp only []
  rw [if_neg h2]

theorem runScript_bindings_subset (arg : String) (w : World) (b : PortBinding)
    (h : b ∈ (runScript arg w).1.bindings) : b ∈ w.bindings := by
  unfold runScript at h
  split at h
  · rename_i w1 c heq
    apply runLinear_bindings_subset arg w b
    rw [heq]
    exact h
  · rename_i w1 heq
    split at h
    · simp only [] at h
      have h3 := runLinear_bindings_subset _ _ b h
      have h2 := runLinear_bindings_subset _ _ b (by simpa using h3)
      apply runLinear_bindings_subset arg w b
      rw [heq]
      simpa using h2
    · apply runLinear_bindings_subset arg w b
      rw [heq]
      exact h

theorem runScript_preserves_foreign (arg : String) (w : World) (b : PortBinding)
    (hb : b ∈ w.bindings)
    (hf : ∀ b2 ∈ w.bindings, b2.pid = b.pid →
      matchesSig b2.cmd backendSig = false ∧ matchesSig b2.cmd frontendSig = false) :
    b ∈ (runScript arg w).1.bindings := by
  unfold runScript
  split
  · rename_i w1 c heq
    have h1 := runLinear_preserves_foreign arg w b hb hf
    rw [heq] at h1
    exact h1
  · rename_i w1 heq
    have h1 : b ∈ w1.bindings := by
      have := runLinear_preserves_foreign arg w b hb hf
      rw [heq] at this
      exact this
    have hf1 : ∀ b2 ∈ w1.bindings, b2.pid = b.pid →
        matchesSig b2.cmd backendSig = false ∧ matchesSig b2.cmd frontendSig = false := by
      intro b2 h2 hq
      apply hf b2 _ hq
      apply runLinear_bindings_subset arg w b2
      rw [heq]
      exact h2
    split
    · have h2 : b ∈ (runLinear ("stop") (emit w1 ("Restarting development environment..."))).1.bindings :=
        runLinear_preserves_foreign _ _ b (by simpa using h1) (by simpa using hf1)
      have hf2 : ∀ b2 ∈ (runLinear ("stop") (emit w1 ("Restarting development environment..."))).1.bindings,
          b2.pid = b.pid →
          matchesSig b2.cmd backendSig = false ∧ matchesSig b2.cmd frontendSig = false := by
        intro b2 hmem hq
        apply hf1 b2 _ hq
        have := runLinear_bindings_subset _ _ b2 hmem
        simpa using this
      exact runLinear_preserves_foreign _ _ b h2 hf2
    · exact h1

theorem runScript_msgs_of_runLinear (arg : String) (w : World) (m : String)
    (h : m ∈ (runLinear arg w).1.msgs) : m ∈ (runScript arg w).1.msgs := by
  unfold runScript
  split
  · rename_i w1 c heq
    rw [heq] at h
    exact h
  · rename_i w1 heq
    rw [heq] at h
    split
    · apply runLinear_msgs_mono
      apply runLinear_msgs_mono
      exact emit_msgs_mono _ _ _ h
    · exact h

theorem runScript_venv (arg : String) (w : World) :
    (runScript arg w).1.venvExists = w.venvExists := by
  unfold runScript
  split
  · rename_i w1 c heq
    have h := runLinear_venv arg w
    rw [heq] at h
    exact h
  · rename_i w1 heq
    have h : w1.venvExists = w.venvExists := by
      have h2 := runLinear_venv arg w
      rw [heq] at h2
      exact h2
    split
    · rw [runLinear_venv, runLinear_venv]
      simpa using h
    · exact h

theorem runScript_nm (arg : String) (w : World) :
    (runScript arg w).1.nodeModulesExists = w.nodeModulesExists := by
  unfold runScript
  split
  · rename_i w1 c heq
    have h := runLinear_nm arg w
    rw [heq] at h
    exact h
  · rename_i w1 heq
    have h : w1.nodeModulesExists = w.nodeModulesExists := by
      have h2 := runLinear_nm arg w
      rw [heq] at h2
      exact h2
    split
    · rw [runLinear_nm, runLinear_nm]
      simpa using h
    · exact h

theorem runScript_screen (arg : String) (w : World) :
    (runScript arg w).1.screenInstalled = w.screenInstalled := by
  unfold runScript
  split
  · rename_i w1 c heq
    have h := runLinear_screen arg w
    rw [heq] at h
    exact h
  · rename_i w1 heq
    have h : w1.screenInstalled = w.screenInstalled := by
      have h2 := runLinear_screen arg w
      rw [heq] at h2
      exact h2
    split
    · rw [runLinear_screen, runLinear_screen]
      simpa using h
    · exact h

/-! ## The happy path reaches the gate with clear ports -/

theorem runLinear_happy_afterGate (arg : String) (w : World)
    (hv : w.venvExists = true) (hn : w.nodeModulesExists = true) (hs : w.screenInstalled = true)
    (hwf : WellFormed w) (hk : serversKillable w) :
    runLinear arg w = afterGate arg (bportW w) (fportW w)
      (stageKills (bportW w) (fportW w) (cleanupSessions (setupEnvFile (mkLogsDir w)))) := by
  rw [runLinear_happy arg w hv hn hs]
  have hYb : (cleanupSessions (setupEnvFile (mkLogsDir w))).bindings = w.bindings := by simp
  have hwfY : ∀ b1, b1 ∈ (cleanupSessions (setupEnvFile (mkLogsDir w))).bindings →
      ∀ b2, b2 ∈ (cleanupSessions (setupEnvFile (mkLogsDir w))).bindings →
      b1.pid = b2.pid → b1.cmd = b2.cmd ∧ b1.killable = b2.killable := by
    intro b1 h1 b2 h2 hq
    rw [hYb] at h1 h2
    exact hwf b1 h1 b2 h2 hq
  have hkY : ∀ b, b ∈ (cleanupSessions (setupEnvFile (mkLogsDir w))).bindings →
      (matchesSig b.cmd backendSig = true ∨ matchesSig b.cmd frontendSig = true) →
      b.killable = true := by
    intro b h1 hm
    rw [hYb] at h1
    exact hk b h1 hm
  have hsubX : ∀ x, x ∈ (stageKills (bportW w) (fportW w)
      (cleanupSessions (setupEnvFile (mkLogsDir w)))).bindings →
      x ∈ (cleanupSessions (setupEnvFile (mkLogsDir w))).bindings :=
    fun x hx => stageKills_bindings_subset _ _ _ _ hx
  have hwfX : ∀ b1, b1 ∈ (stageKills (bportW w) (fportW w)
      (cleanupSessions (setupEnvFile (mkLogsDir w)))).bindings →
      ∀ b2, b2 ∈ (stageKills (bportW w) (fportW w)
      (cleanupSessions (setupEnvFile (mkLogsDir w)))).bindings →
      b1.pid = b2.pid → b1.cmd = b2.cmd ∧ b1.killable = b2.killable :=
    fun b1 h1 b2 h2 hq => hwfY b1 (hsubX b1 h1) b2 (hsubX b2 h2) hq
  have hchkF : checkPort (stageKills (bportW w) (fportW w)
      (cleanupSessions (setupEnvFile (mkLogsDir w)))) (fportW w) frontendSig = [] := by
    apply checkPort_eq_nil _ _ _ hwfX
    intro b hb hp hm
    exact stageKills_clear_frontend _ _ _ hwfY (fun x hx hmm => hkY x hx (Or.inr hmm)) b hb hp hm
  have hchkB : checkPort (stageKills (bportW w) (fportW w)
      (cleanupSessions (setupEnvFile (mkLogsDir w)))) (bportW w) backendSig = [] := by
    apply checkPort_eq_nil _ _ _ hwfX
    intro b hb hp hm
    exact stageKills_clear_backend _ _ _ hwfY (fun x hx hmm => hkY x hx (Or.inl hmm)) b hb hp hm
  exact portGate_eq_afterGate arg _ _ _ hchkF hchkB

/-! ## Substring facts -/

theorem hasInfix_iff (l pat : List Char) : hasInfix l pat = true ↔ pat <:+: l := by
  induction l with
  | nil => simp [hasInfix, List.isEmpty_iff]
  | cons c t ih =>
    simp [hasInfix, Bool.or_eq_true, List.isPrefixOf_iff_prefix, ih, List.infix_cons_iff]

theorem infix_append_left {l m : List Char} (x : List Char) (h : l <:+: m) : l <:+: x ++ m := by
  obtain ⟨s, t, h2⟩ := h
  exact ⟨x ++ s, t, by rw [← h2]; simp⟩

theorem strContains_of_infix (s pat : String) (h : pat.data <:+: s.data) :
    strContains s pat = true := by
  unfold strContains
  exact (hasInfix_iff s.data pat.data).2 h

/-! ## Session filter facts -/

theorem filterB_cleaned_nil (l : List Session) :
    (((l.filter (fun s => !(strContains s.name ("webui-backend")))).filter
      (fun s => !(strContains s.name ("webui-frontend")))).filter
      (fun s => strContains s.name ("webui-backend"))) = [] := by
  rw [List.eq_nil_iff_forall_not_mem]
  intro s hs
  simp only [List.mem_filter] at hs
  obtain ⟨⟨⟨_, hb⟩, _⟩, hcon⟩ := hs
  simp only [Bool.not_eq_true'] at hb
  rw [hb] at hcon
  cases hcon

theorem filterF_cleaned_nil (l : List Session) :
    (((l.filter (fun s => !(strContains s.name ("webui-backend")))).filter
      (fun s => !(strContains s.name ("webui-frontend")))).filter
      (fun s => strContains s.name ("webui-frontend"))) = [] := by
  rw [List.eq_nil_iff_forall_not_mem]
  intro s hs
  simp only [List.mem_filter] at hs
  obtain ⟨⟨⟨_, _⟩, hf⟩, hcon⟩ := hs
  simp only [Bool.not_eq_true'] at hf
  rw [hf] at hcon
  cases hcon

theorem sB_in_B : strContains ("webui-backend") ("webui-backend") = true := by decide

theorem sF_in_B : strContains ("webui-frontend") ("webui-backend") = false := by decide

theorem sB_in_F : strContains ("webui-backend") ("webui-frontend") = false := by decide

theorem sF_in_F : strContains ("webui-frontend") ("webui-frontend") = true := by decide

/-! ## Claim theorems -/

/-- C1: For every process bound to the configured backend or frontend port whose
command line does not match the expected server-signature allow-list, neither the
start path nor the stop path of dev.sh sends it a termination signal: the process
(its port binding) still exists after the full invocation, and the foreign-process
warning advisory for its pid and port is echoed instead. -/
theorem c1_foreign_process_survives (arg : String) (w : World) (b : PortBinding)
    (hpre : preconds w) (hb : b ∈ w.bindings)
    (hport : b.port = bportW w ∨ b.port = fportW w)
    (hf : ∀ b2 ∈ w.bindings, b2.pid = b.pid →
      matchesSig b2.cmd backendSig = false ∧ matchesSig b2.cmd frontendSig = false) :
    b ∈ (runScript arg w).1.bindings ∧
    warnForeign b.pid b.port ∈ (runScript arg w).1.msgs := by
  obtain ⟨hv, hn, hs⟩ := hpre
  refine ⟨runScript_preserves_foreign arg w b hb hf, ?_⟩
  exact runScript_msgs_of_runLinear arg w _ (runLinear_warns arg w b hv hn hs hb hport hf)

/-- Witness for C1: a concrete java process holding the frontend port of a clean
checkout survives the run and the warning is emitted. -/
theorem c1_foreign_process_survives_witness :
    preconds foreignWorld ∧
    (foreignBinding ∈ (runScript ("") foreignWorld).1.bindings ∧
     warnForeign foreignBinding.pid foreignBinding.port ∈ (runScript ("") foreignWorld).1.msgs) :=
  ⟨by decide, c1_foreign_process_survives ("") foreignWorld foreignBinding (by decide) (by decide)
    (Or.inr (by decide)) (by decide)⟩

/-- C4 counterexample: with screen missing (and prerequisites installed, a
template present, no logs directory), the invocation does exit with status 1, but
only after creating the logs directory and copying the environment template —
refuting the claim that the script exits before any mutating action. -/
theorem c4_mutation_before_exit_cex :
    noScreenWorld.logsDirExists = false ∧ noScreenWorld.envFile = none ∧
    (runScript ("") noScreenWorld).2 = 1 ∧
    (runScript ("") noScreenWorld).1.logsDirExists = true ∧
    (runScript ("") noScreenWorld).1.envFile.isSome = true := by
  decide

/-- C4 (amended): when screen is not installed the script exits with status 1
before quitting or launching any session and before touching any port binding —
but after creating the logs directory (and, when applicable, copying the
environment template). -/
theorem c4_screen_missing_behavior (w : World) (hs : w.screenInstalled = false) :
    (runScript ("") w).2 = 1 ∧
    (runScript ("") w).1.sessions = w.sessions ∧
    (runScript ("") w).1.bindings = w.bindings ∧
    (runScript ("") w).1.spawned = w.spawned ∧
    (runScript ("") w).1.logsDirExists = true := by
  have hlin : (runLinear ("") w).2 = some 1 ∧
      (runLinear ("") w).1.sessions = w.sessions ∧
      (runLinear ("") w).1.bindings = w.bindings ∧
      (runLinear ("") w).1.spawned = w.spawned ∧
      (runLinear ("") w).1.logsDirExists = true := by
    simp only [runLinear]
    by_cases hv : w.venvExists = true
    · by_cases hn : w.nodeModulesExists = true
      · simp [hv, hn, hs]
      · simp [hv, hn]
    · simp [hv]
  have hrs := runScript_of_runLinear_some ("") w 1 hlin.1
  rw [hrs]
  exact ⟨rfl, hlin.2.1, hlin.2.2.1, hlin.2.2.2.1, hlin.2.2.2.2⟩

/-- Witness for the amended C4 at the concrete no-screen world. -/
theorem c4_screen_missing_behavior_witness :
    noScreenWorld.screenInstalled = false ∧
    ((runScript ("") noScreenWorld).2 = 1 ∧
     (runScript ("") noScreenWorld).1.sessions = noScreenWorld.sessions ∧
     (runScript ("") noScreenWorld).1.bindings = noScreenWorld.bindings ∧
     (runScript ("") noScreenWorld).1.spawned = noScreenWorld.spawned ∧
     (runScript ("") noScreenWorld).1.logsDirExists = true) :=
  ⟨rfl, c4_screen_missing_behavior noScreenWorld rfl⟩

/-- C5 counterexample: the missing-prerequisite failure and the
port-still-occupied failure exit with the SAME status 1, refuting the claim that
the port-conflict status is distinct from the PreconditionMissing status.  The
second run is genuinely on the port-conflict path: nothing is launched and the
offending command line is echoed. -/
theorem c5_exit_status_not_distinct_cex :
    (runScript ("") noVenvWorld).2 = 1 ∧
    (runScript ("") stuckBackendWorld).2 = 1 ∧
    (runScript ("") stuckBackendWorld).1.spawned = [] ∧
    ("python -m uvicorn open_webui.main:app" ∈ (runScript ("") stuckBackendWorld).1.msgs) := by
  decide

/-- C5 (amended): if after the kill attempt a known server process is still bound
to the configured backend or frontend port, start() exits with the non-zero
status 1 (the same status as the missing-prerequisite failures), echoes an
offending known-server command line, and launches no new session. -/
theorem c5_port_conflict_fatal (w : World) (hpre : preconds w) (hwf : WellFormed w)
    (hstuck : ∃ b, b ∈ w.bindings ∧ b.killable = false ∧
      ((b.port = bportW w ∧ matchesSig b.cmd backendSig = true) ∨
       (b.port = fportW w ∧ matchesSig b.cmd frontendSig = true))) :
    (runScript ("") w).2 = 1 ∧ (runScript ("") w).1.spawned = w.spawned ∧
    ∃ c, c ∈ (runScript ("") w).1.msgs ∧ ∃ b2, b2 ∈ w.bindings ∧ b2.cmd = c ∧
      (matchesSig c backendSig = true ∨ matchesSig c frontendSig = true) := by
  obtain ⟨hv, hn, hs⟩ := hpre
  obtain ⟨b, hb, hkf, hcase⟩ := hstuck
  have hYb : (cleanupSessions (setupEnvFile (mkLogsDir w))).bindings = w.bindings := by simp
  have hbY : b ∈ (cleanupSessions (setupEnvFile (mkLogsDir w))).bindings := by
    rw [hYb]
    exact hb
  have hbX : b ∈ (stageKills (bportW w) (fportW w)
      (cleanupSessions (setupEnvFile (mkLogsDir w)))).bindings :=
    stageKills_preserves_unkillable _ _ _ b hbY hkf
  have hsubX : ∀ x, x ∈ (stageKills (bportW w) (fportW w)
      (cleanupSessions (setupEnvFile (mkLogsDir w)))).bindings → x ∈ w.bindings := by
    intro x hx
    have h2 := stageKills_bindings_subset _ _ _ _ hx
    rw [hYb] at h2
    exact h2
  have hwfX : ∀ b1, b1 ∈ (stageKills (bportW w) (fportW w)
      (cleanupSessions (setupEnvFile (mkLogsDir w)))).bindings →
      ∀ b2, b2 ∈ (stageKills (bportW w) (fportW w)
      (cleanupSessions (setupEnvFile (mkLogsDir w)))).bindings →
      b1.pid = b2.pid → b1.cmd = b2.cmd ∧ b1.killable = b2.killable :=
    fun b1 h1 b2 h2 hq => hwf b1 (hsubX b1 h1) b2 (hsubX b2 h2) hq
  by_cases hF : checkPort (stageKills (bportW w) (fportW w)
      (cleanupSessions (setupEnvFile (mkLogsDir w)))) (fportW w) frontendSig = []
  · have hbc : b.port = bportW w ∧ matchesSig b.cmd backendSig = true := by
      rcases hcase with h | h
      · exact h
      · exfalso
        have hmem := cmd_mem_checkPort _ (fportW w) frontendSig b hbX hwfX h.1 h.2
        rw [hF] at hmem
        cases hmem
    have hBne : ¬ checkPort (stageKills (bportW w) (fportW w)
        (cleanupSessions (setupEnvFile (mkLogsDir w)))) (bportW w) backendSig = [] := by
      intro h0
      have hmem := cmd_mem_checkPort _ (bportW w) backendSig b hbX hwfX hbc.1 hbc.2
      rw [h0] at hmem
      cases hmem
    have hlin : runLinear ("") w =
        (emitAll (emit (stageKills (bportW w) (fportW w)
          (cleanupSessions (setupEnvFile (mkLogsDir w)))) (portErr (bportW w)))
          (checkPort (stageKills (bportW w) (fportW w)
            (cleanupSessions (setupEnvFile (mkLogsDir w)))) (bportW w) backendSig), some 1) := by
      rw [runLinear_happy ("") w hv hn hs]
      exact portGate_exit_backend ("") _ _ _ hF hBne
    have hrs := runScript_of_runLinear_some ("") w 1 (by rw [hlin])
    rw [hrs, hlin]
    refine ⟨rfl, by simp, ?_⟩
    refine ⟨b.cmd, ?_, b, hb, rfl, Or.inl hbc.2⟩
    simp only [emitAll_msgs, emit_msgs]
    exact List.mem_append.2 (Or.inr (cmd_mem_checkPort _ _ backendSig b hbX hwfX hbc.1 hbc.2))
  · have hlin : runLinear ("") w =
        (emitAll (emit (stageKills (bportW w) (fportW w)
          (cleanupSessions (setupEnvFile (mkLogsDir w)))) (portErr (fportW w)))
          (checkPort (stageKills (bportW w) (fportW w)
            (cleanupSessions (setupEnvFile (mkLogsDir w)))) (fportW w) frontendSig), some 1) := by
      rw [runLinear_happy ("") w hv hn hs]
      exact portGate_exit_frontend ("") _ _ _ hF
    have hrs := runScript_of_runLinear_some ("") w 1 (by rw [hlin])
    rw [hrs, hlin]
    refine ⟨rfl, by simp, ?_⟩
    obtain ⟨c, hc⟩ := List.exists_mem_of_ne_nil _ hF
    obtain ⟨b2, hb2X, hb2c, hb2m⟩ := checkPort_mem_origin _ (fportW w) frontendSig c hc
    refine ⟨c, ?_, b2, hsubX b2 hb2X, hb2c, Or.inr hb2m⟩
    simp only [emitAll_msgs, emit_msgs]
    exact List.mem_append.2 (Or.inr hc)

/-- Witness for the amended C5 at a world with an unkillable backend server on
the backend port. -/
theorem c5_port_conflict_fatal_witness :
    preconds stuckBackendWorld ∧ WellFormed stuckBackendWorld ∧
    ((runScript ("") stuckBackendWorld).2 = 1 ∧
     (runScript ("") stuckBackendWorld).1.spawned = stuckBackendWorld.spawned ∧
     ∃ c, c ∈ (runScript ("") stuckBackendWorld).1.msgs ∧
       ∃ b2, b2 ∈ stuckBackendWorld.bindings ∧ b2.cmd = c ∧
         (matchesSig c backendSig = true ∨ matchesSig c frontendSig = true)) :=
  ⟨by decide, by decide,
    c5_port_conflict_fatal stuckBackendWorld (by decide) (by decide)
      ⟨stuckBackendBinding, by decide, by decide, Or.inl ⟨by decide, by decide⟩⟩⟩

theorem runLinear_stop_result (w : World)
    (hv : w.venvExists = true) (hn : w.nodeModulesExists = true) (hs : w.screenInstalled = true)
    (hwf : WellFormed w) (hk : serversKillable w) :
    (runLinear ("stop") w).2 = some 0 ∧ managedSessions (runLinear ("stop") w).1 = [] := by
  rw [runLinear_happy_afterGate ("stop") w hv hn hs hwf hk]
  exact ⟨afterGate_exit_stop _ _ _, afterGate_managed_stop _ _ _⟩

/-- C6 counterexample: a starting state with the virtual environment missing
makes the stop invocation exit with status 1, refuting the claim that stop exits
0 from every starting state. -/
theorem c6_stop_not_idempotent_cex :
    (runScript ("stop") noVenvWorld).2 = 1 := by
  decide

/-- C6 (amended): for every starting state that satisfies the prerequisite
checks, has consistent port-binding data, and has no unkillable known-server
process, invoking stop twice in a row exits 0 both times and leaves zero managed
(webui-named) sessions after each invocation. -/
theorem c6_stop_idempotent (w : World) (hpre : preconds w) (hwf : WellFormed w)
    (hk : serversKillable w) :
    (runScript ("stop") w).2 = 0 ∧
    managedSessions (runScript ("stop") w).1 = [] ∧
    (runScript ("stop") (runScript ("stop") w).1).2 = 0 ∧
    managedSessions (runScript ("stop") (runScript ("stop") w).1).1 = [] := by
  obtain ⟨hv, hn, hs⟩ := hpre
  have r1 := runLinear_stop_result w hv hn hs hwf hk
  have hr1 := runScript_of_runLinear_some ("stop") w 0 r1.1
  have hv1 : (runScript ("stop") w).1.venvExists = true := by
    rw [runScript_venv]
    exact hv
  have hn1 : (runScript ("stop") w).1.nodeModulesExists = true := by
    rw [runScript_nm]
    exact hn
  have hs1 : (runScript ("stop") w).1.screenInstalled = true := by
    rw [runScript_screen]
    exact hs
  have hwf1 : WellFormed (runScript ("stop") w).1 :=
    fun b1 h1 b2 h2 hq =>
      hwf b1 (runScript_bindings_subset _ _ _ h1) b2 (runScript_bindings_subset _ _ _ h2) hq
  have hk1 : serversKillable (runScript ("stop") w).1 :=
    fun b h1 hm => hk b (runScript_bindings_subset _ _ _ h1) hm
  have r2 := runLinear_stop_result (runScript ("stop") w).1 hv1 hn1 hs1 hwf1 hk1
  refine ⟨by rw [hr1], ?_, ?_, ?_⟩
  · rw [hr1]
    exact r1.2
  · rw [runScript_of_runLinear_some ("stop") _ 0 r2.1]
  · rw [runScript_of_runLinear_some ("stop") _ 0 r2.1]
    exact r2.2

/-- Witness for the amended C6 at the clean development world. -/
theorem c6_stop_idempotent_witness :
    preconds devWorld ∧ WellFormed devWorld ∧ serversKillable devWorld ∧
    ((runScript ("stop") devWorld).2 = 0 ∧
     managedSessions (runScript ("stop") devWorld).1 = [] ∧
     (runScript ("stop") (runScript ("stop") devWorld).1).2 = 0 ∧
     managedSessions (runScript ("stop") (runScript ("stop") devWorld).1).1 = []) :=
  ⟨by decide, by decide, by decide,
    c6_stop_idempotent devWorld (by decide) (by decide) (by decide)⟩

/-- C7: under the same benign hypotheses, a run of the start path reaps the
stale webui-named sessions before launching new ones, so afterwards exactly one
session bears the backend name and exactly one the frontend name — at most one
managed session per logical role. -/
theorem c7_single_session_per_role (w : World) (hpre : preconds w) (hwf : WellFormed w)
    (hk : serversKillable w) :
    ((runScript ("") w).1.sessions.filter
      (fun s => strContains s.name ("webui-backend"))).length = 1 ∧
    ((runScript ("") w).1.sessions.filter
      (fun s => strContains s.name ("webui-frontend"))).length = 1 := by
  obtain ⟨hv, hn, hs⟩ := hpre
  have hlin := runLinear_happy_afterGate ("") w hv hn hs hwf hk
  have hnone : (runLinear ("") w).2 = none := by
    rw [hlin]
    exact afterGate_exit_nonstop _ _ _ _ (by decide)
  have hrs := runScript_of_runLinear_none ("") w hnone (by decide)
  rw [hrs]
  have hses : (runLinear ("") w).1.sessions =
      ((w.sessions.filter (fun s => !(strContains s.name ("webui-backend")))).filter
        (fun s => !(strContains s.name ("webui-frontend")))) ++
      [⟨"webui-backend", backendLaunchCmd w.scriptDir (bportW w)⟩,
       ⟨"webui-frontend", frontendLaunchCmd w.scriptDir⟩] := by
    rw [hlin, afterGate_sessions_nonstop _ _ _ _ (by decide)]
    simp
  rw [hses]
  constructor
  · rw [List.filter_append, filterB_cleaned_nil]
    simp [List.filter, sB_in_B, sF_in_B]
  · rw [List.filter_append, filterF_cleaned_nil]
    simp [List.filter, sB_in_F, sF_in_F]

/-- Witness for C7 at the clean development world. -/
theorem c7_single_session_per_role_witness :
    preconds devWorld ∧ WellFormed devWorld ∧ serversKillable devWorld ∧
    (((runScript ("") devWorld).1.sessions.filter
       (fun s => strContains s.name ("webui-backend"))).length = 1 ∧
     ((runScript ("") devWorld).1.sessions.filter
       (fun s => strContains s.name ("webui-frontend"))).length = 1) :=
  ⟨by decide, by decide, by decide,
    c7_single_session_per_role devWorld (by decide) (by decide) (by decide)⟩

/-- C2: evaluating a `stop` invocation on a clean world.  The invocation does
exit 0 and ends with the sessions terminated, but its spawn history shows that
both screen sessions were launched during the very same invocation, because the
argument dispatch (dev.sh lines 161-197) sits after the unconditional launch
(lines 137-147).  This exhibits the divergence between the code and the claim
that `stop` runs only the stop operation. -/
theorem c2_stop_invocation_launches :
    (runScript ("stop") devWorld).2 = 0 ∧
    ((runScript ("stop") devWorld).1.spawned.map (fun s => s.name)) =
      ["webui-backend", "webui-frontend"] ∧
    (runScript ("stop") devWorld).1.sessions = [] := by
  decide

/-- C3: evaluating a `restart` invocation on a clean world.  A faithful
stop-then-start would launch each session exactly once (two spawns); the actual
run spawns six sessions — the unconditional launch runs once in the outer
invocation, once inside the recursive `stop` child, and once inside the
recursive `start` child — and the invocation exits 0 unconditionally (line 206)
instead of propagating the start step's status. -/
theorem c3_restart_not_stop_then_start :
    (runScript ("restart") devWorld).2 = 0 ∧
    ((runScript ("restart") devWorld).1.spawned.map (fun s => s.name)) =
      ["webui-backend", "webui-frontend", "webui-backend", "webui-frontend",
       "webui-backend", "webui-frontend"] := by
  decide

@[simp] theorem mkLogsDir_envExample (w : World) : (mkLogsDir w).envExample = w.envExample := rfl

@[simp] theorem mkLogsDir_shellEnv (w : World) : (mkLogsDir w).shellEnv = w.shellEnv := rfl

@[simp] theorem emit_envExample (w : World) (m : String) : (emit w m).envExample = w.envExample := rfl

@[simp] theorem emit_shellEnv (w : World) (m : String) : (emit w m).shellEnv = w.shellEnv := rfl

theorem sourcedEnv_no_config (w : World) (h1 : w.envFile = none) (h2 : w.envExample = none) :
    sourcedEnv (setupEnvFile (mkLogsDir w)) = w.shellEnv := by
  unfold setupEnvFile
  simp only [mkLogsDir_envFile, h1, mkLogsDir_envExample, h2]
  unfold sourcedEnv
  simp [h1]

/-- C8: when no configuration file (and no template) is present and the three
environment variables are unset, the orchestration script computes backend port
"8080" and frontend port "5173", and the Vite configuration computes the same
numeric defaults 8080 and 5173 for the proxy target and the dev-server port. -/
theorem c8_default_ports (w : World) (h1 : w.envFile = none) (h2 : w.envExample = none)
    (h3 : w.shellEnv = emptyEnv) :
    bportW w = "8080" ∧ fportW w = "5173" ∧
    viteBackendPort w.shellEnv = some 8080 ∧ viteFrontendPort w.shellEnv = some 5173 := by
  refine ⟨?_, ?_, by rw [h3]; decide, by rw [h3]; decide⟩
  · unfold bportW
    rw [sourcedEnv_no_config w h1 h2, h3]
    decide
  · unfold fportW
    rw [sourcedEnv_no_config w h1 h2, h3]
    decide

/-- Witness for C8 at the clean development world. -/
theorem c8_default_ports_witness :
    devWorld.envFile = none ∧ devWorld.envExample = none ∧ devWorld.shellEnv = emptyEnv ∧
    (bportW devWorld = "8080" ∧ fportW devWorld = "5173" ∧
     viteBackendPort devWorld.shellEnv = some 8080 ∧
     viteFrontendPort devWorld.shellEnv = some 5173) :=
  ⟨rfl, rfl, rfl, c8_default_ports devWorld rfl rfl rfl⟩

/-- C9: every request path carrying the /api prefix is forwarded to the backend
URL with the path unmodified (the /api entry's rewrite is the identity), and the
Auth0 OAuth callback route has its own proxy entry — keyed by the full callback
path, distinct from /api — that carries no rewrite at all. -/
theorem c9_proxy_identity_rewrite (env : EnvMap) (p : String)
    (h : strStartsWith p ("/api") = true) :
    viteProxyForward env p = some (backendUrl env, p) ∧
    ∃ e, e ∈ proxyConfig env ∧ e.1 = "/api/v1/auths/oauth/auth0/callback" ∧
      ¬ e.1 = "/api" ∧ e.2.rewrite = none := by
  constructor
  · unfold viteProxyForward proxyConfig
    rw [List.find?_cons_of_pos _ (by simpa using h)]
    rfl
  · refine ⟨("/api/v1/auths/oauth/auth0/callback",
      { target := backendUrl env, changeOrigin := true, secure := false, rewrite := none }),
      List.mem_cons_of_mem _ (List.mem_singleton_self _), rfl,
      fun hcontra =>
        (by decide : ¬("/api/v1/auths/oauth/auth0/callback" : String) = "/api") hcontra,
      rfl⟩

/-- Witness for C9 at the empty environment and a concrete /api path. -/
theorem c9_proxy_identity_rewrite_witness :
    strStartsWith ("/api/v1/models") ("/api") = true ∧
    (viteProxyForward emptyEnv ("/api/v1/models") =
      some (backendUrl emptyEnv, "/api/v1/models") ∧
     ∃ e, e ∈ proxyConfig emptyEnv ∧ e.1 = "/api/v1/auths/oauth/auth0/callback" ∧
       ¬ e.1 = "/api" ∧ e.2.rewrite = none) :=
  ⟨by decide, c9_proxy_identity_rewrite emptyEnv ("/api/v1/models") (by decide)⟩

/-- C10: the backend launch command hard-codes the bind host 0.0.0.0 — it is a
function of the checkout directory and the port only, so no configured host
variable can change it — while the Vite proxy target host defaults to the
loopback address 127.0.0.1 when VITE_API_HOST is unset. -/
theorem c10_backend_binds_all_interfaces :
    (∀ dir port : String, strContains (backendLaunchCmd dir port) ("--host 0.0.0.0") = true) ∧
    viteBackendHost emptyEnv = "127.0.0.1" := by
  constructor
  · intro dir port
    apply strContains_of_infix
    unfold backendLaunchCmd uvicornTail
    simp only [String.data_append, List.append_assoc]
    apply infix_append_left
    apply infix_append_left
    apply infix_append_left
    apply infix_append_left
    apply infix_append_left
    apply infix_append_left
    have hD : ("--host 0.0.0.0").data <:+:
        (" --host 0.0.0.0 --forwarded-allow-ips \x27*\x27 --reload 2>&1 | tee ").data := by
      decide
    exact hD.trans (List.prefix_append _ _).isInfix
  · rfl

end DevOrch
